import Mathlib

/-!
Shallow embedding of the WhatsApp multi-device manager
(`src/unnamed/part_000`, class `WhatsAppManager`) together with the parts of
the Session Store (`src/src/models/database.js`) that its claims depend on.

Modelling conventions:
* JavaScript runtime values are modelled by `JVal`; JS numbers are modelled as
  exact rationals (the claims under study never depend on IEEE-754 rounding).
* Machine effects (DB writes, counter increments, store log records, HTTP
  posts, provider sends) are recorded in an explicit event trace `List Ev`.
* External collaborators (the Session Provider's `initialize`/`destroy`/
  `sendMessage`, and the HTTP stack) are oracles passed as arguments.
* `try`/`catch` blocks of the source are modelled explicitly: an operation
  that can throw is represented by an `Except`-valued oracle or an `Option`
  result, and each catch site of the source maps to the corresponding
  branch of the Lean definition.
-/

namespace Waweb

/-! ### Characters that the repository's string scanner treats specially -/

def chQuote : Char := Char.ofNat 34
def chApos : Char := Char.ofNat 39
def chBacktick : Char := Char.ofNat 96
def chBackslash : Char := Char.ofNat 92
def chLBrace : Char := Char.ofNat 123
def chRBrace : Char := Char.ofNat 125
def chLBracket : Char := Char.ofNat 91
def chRBracket : Char := Char.ofNat 93
def chDollar : Char := '$'
def chAmp : Char := '&'

/-! ### JavaScript values -/

/-- JavaScript runtime values. JS numbers are modelled as exact rationals;
none of the verified claims depends on floating-point rounding. -/
inductive JVal where
  | jnull
  | jundefined
  | jbool (b : Bool)
  | jnum (q : Rat)
  | jstr (s : String)
  | jarr (elems : List JVal)
  | jobj (fields : List (String × JVal))

/-- JS truthiness (`if (v)`). `NaN` does not arise in the embedded code. -/
def truthy : JVal → Bool
  | .jnull => false
  | .jundefined => false
  | .jbool b => b
  | .jnum q => decide (q ≠ 0)
  | .jstr s => decide (s ≠ "")
  | .jarr _ => true
  | .jobj _ => true

/-- JS property read `o[k]`. On objects: the named field or `undefined`.
On arrays: decimal indices and `length`. On primitives (string, number,
boolean) property reads yield `undefined` for the keys the manager probes.
The manager never reads a property of `null`/`undefined` (every such site in
the source is guarded by a truthiness test), so those cases are unreachable
and mapped to `undefined`. -/
def getField (o : JVal) (k : String) : JVal :=
  match o with
  | .jobj fs =>
    match fs.lookup k with
    | some v => v
    | none => .jundefined
  | .jarr xs =>
    if k = "length" then .jnum (mkRat xs.length 1)
    else
      match k.toNat? with
      | some i => (xs.get? i).getD .jundefined
      | none => .jundefined
  | _ => .jundefined

/-- JS `k in o` for the shapes the manager traverses. -/
def hasKey (o : JVal) (k : String) : Bool :=
  match o with
  | .jobj fs => fs.any (fun kv => kv.1 == k)
  | .jarr xs =>
    k == "length" ||
      (match k.toNat? with
       | some i => decide (i < xs.length)
       | none => false)
  | _ => false

/-- JS `typeof v === 'object'` (true for objects, arrays and `null`). -/
def isObjectType : JVal → Bool
  | .jobj _ => true
  | .jarr _ => true
  | .jnull => true
  | _ => false

/-- JS `String(n)` for the numbers occurring in the template variable set.
All numeric template variables are integer timestamps, so only the integer
case is exercised; the non-integer branch is never reached by the manager. -/
def jsNumToString (q : Rat) : String :=
  if q.den = 1 then toString q.num else toString q

/-! ### JavaScript `String.prototype.replace(regex, string)`.

With a string as second argument, JS expands replacement patterns inside it:
`$$` inserts `$`, `$&` the matched text, `` $` `` the part of the input
before the match, `$'` the part after the match.  The manager's regexes
(`/{{key}}/g`) have no capture groups, so `$n` and `$<name>` stay literal. -/

/-- Expand the JS replacement patterns of `repl` for one match occurrence:
`matched` is the matched text, `before`/`after` the input around the match. -/
def expandDollar (repl matched before after : List Char) : List Char :=
  match repl with
  | [] => []
  | c :: t =>
    if c = chDollar then
      match t with
      | [] => [c]
      | d :: t2 =>
        if d = chDollar then chDollar :: expandDollar t2 matched before after
        else if d = chAmp then matched ++ expandDollar t2 matched before after
        else if d = chBacktick then before ++ expandDollar t2 matched before after
        else if d = chApos then after ++ expandDollar t2 matched before after
        else c :: d :: expandDollar t2 matched before after
    else c :: expandDollar t matched before after

/-- Global replace with JS replacement-pattern expansion, on char lists.
`before` accumulates the input already consumed (needed for `` $` ``). -/
def replAux : Nat → List Char → List Char → List Char → List Char → List Char
  | 0, _, _, _, rest => rest
  | fuel + 1, pat, repl, before, rest =>
    match rest with
    | [] => []
    | c :: t =>
      if pat ≠ [] ∧ pat.isPrefixOf rest then
        expandDollar repl pat before (rest.drop pat.length) ++
          replAux fuel pat repl (before ++ pat) (rest.drop pat.length)
      else
        c :: replAux fuel pat repl (before ++ [c]) t

/-- JS `s.replace(new RegExp(pat, 'g'), repl)` where `pat` is a literal
pattern with no capture groups and `repl` is a string. -/
def jsReplaceAll (s pat repl : String) : String :=
  String.mk (replAux (s.toList.length + 1) pat.toList repl.toList [] s.toList)

/-- Literal global replace, with the replacement inserted verbatim.  This is
the substitution the spec's words describe ("string values inserted
literally"); it is compared against `jsReplaceAll`, which is what the source
actually performs. -/
def literalReplAux : Nat → List Char → List Char → List Char → List Char
  | 0, _, _, rest => rest
  | fuel + 1, pat, repl, rest =>
    match rest with
    | [] => []
    | c :: t =>
      if pat ≠ [] ∧ pat.isPrefixOf rest then
        repl ++ literalReplAux fuel pat repl (rest.drop pat.length)
      else
        c :: literalReplAux fuel pat repl t

/-- Spec-described literal global replace on strings. -/
def literalReplaceAll (s pat repl : String) : String :=
  String.mk (literalReplAux (s.toList.length + 1) pat.toList repl.toList s.toList)

/-! ### JSON (`JSON.parse`, `JSON.stringify`) -/

/-- JSON insignificant whitespace. -/
def isJsonWs (c : Char) : Bool :=
  c = ' ' || c = Char.ofNat 9 || c = Char.ofNat 10 || c = Char.ofNat 13

def skipWs (cs : List Char) : List Char := cs.dropWhile isJsonWs

def hexVal? (c : Char) : Option Nat :=
  if '0' ≤ c ∧ c ≤ '9' then some (c.toNat - 48)
  else if 'a' ≤ c ∧ c ≤ 'f' then some (c.toNat - 87)
  else if 'A' ≤ c ∧ c ≤ 'F' then some (c.toNat - 55)
  else none

/-- Body of a JSON string, after the opening quote: returns the decoded
characters and the input after the closing quote. -/
def pStringBody : List Char → Option (List Char × List Char)
  | [] => none
  | c :: t =>
    if c = chQuote then some ([], t)
    else if c = chBackslash then
      match t with
      | [] => none
      | e :: t2 =>
        if e = chQuote then (pStringBody t2).map (fun r => (chQuote :: r.1, r.2))
        else if e = chBackslash then (pStringBody t2).map (fun r => (chBackslash :: r.1, r.2))
        else if e = '/' then (pStringBody t2).map (fun r => ('/' :: r.1, r.2))
        else if e = 'b' then (pStringBody t2).map (fun r => (Char.ofNat 8 :: r.1, r.2))
        else if e = 'f' then (pStringBody t2).map (fun r => (Char.ofNat 12 :: r.1, r.2))
        else if e = 'n' then (pStringBody t2).map (fun r => (Char.ofNat 10 :: r.1, r.2))
        else if e = 'r' then (pStringBody t2).map (fun r => (Char.ofNat 13 :: r.1, r.2))
        else if e = 't' then (pStringBody t2).map (fun r => (Char.ofNat 9 :: r.1, r.2))
        else if e = 'u' then
          match t2 with
          | a :: b :: c2 :: d :: t3 =>
            match hexVal? a, hexVal? b, hexVal? c2, hexVal? d with
            | some ha, some hb, some hc, some hd =>
              (pStringBody t3).map
                (fun r => (Char.ofNat (((ha * 16 + hb) * 16 + hc) * 16 + hd) :: r.1, r.2))
            | _, _, _, _ => none
          | _ => none
        else none
    else if c.toNat < 32 then none
    else (pStringBody t).map (fun r => (c :: r.1, r.2))

def isDigit (c : Char) : Bool := '0' ≤ c && c ≤ '9'

def digitsToNat (ds : List Char) : Nat :=
  ds.foldl (fun acc c => acc * 10 + (c.toNat - 48)) 0

/-- JSON number: `-?(0|[1-9][0-9]*)(\.[0-9]+)?([eE][+-]?[0-9]+)?`,
evaluated exactly as a rational. -/
def pNumber (cs : List Char) : Option (Rat × List Char) :=
  let (neg, cs1) :=
    match cs with
    | c :: t => if c = '-' then (true, t) else (false, cs)
    | [] => (false, cs)
  let intDs := cs1.takeWhile isDigit
  let rest1 := cs1.dropWhile isDigit
  if intDs = [] then none
  else if intDs.head? = some '0' ∧ intDs.length > 1 then none
  else
    let (fracDs, rest2) :=
      match rest1 with
      | c :: t =>
        if c = '.' then (t.takeWhile isDigit, t.dropWhile isDigit) else ([], rest1)
      | [] => ([], rest1)
    let fracPresent :=
      match rest1 with
      | c :: _ => c = '.'
      | [] => false
    if fracPresent && fracDs.isEmpty then none
    else
      let expParse : Option (Int × List Char) :=
        match rest2 with
        | c :: t =>
          if c = 'e' ∨ c = 'E' then
            let (esign, t2) :=
              match t with
              | d :: t3 =>
                if d = '+' then ((1 : Int), t3)
                else if d = '-' then ((-1 : Int), t3)
                else ((1 : Int), t)
              | [] => ((1 : Int), t)
            let expDs := t2.takeWhile isDigit
            let rest3 := t2.dropWhile isDigit
            if expDs = [] then none
            else some (esign * ((digitsToNat expDs : Nat) : Int), rest3)
          else some (0, rest2)
        | [] => some (0, rest2)
      match expParse with
      | none => none
      | some (e, restF) =>
        let mantN : Nat := digitsToNat intDs * 10 ^ fracDs.length + digitsToNat fracDs
        let mant : Int := if neg then -(mantN : Int) else (mantN : Int)
        let q : Rat :=
          if e ≥ 0 then mkRat (mant * (10 ^ e.toNat : Nat)) (10 ^ fracDs.length)
          else mkRat mant (10 ^ fracDs.length * 10 ^ (-e).toNat)
        some (q, restF)

/-- JS object construction keeps the first-insertion position of a duplicate
key but its last value (`JSON.parse('{"a":1,"a":2}')` gives `{a:2}`). -/
def objInsert (fs : List (String × JVal)) (k : String) (v : JVal) : List (String × JVal) :=
  if fs.any (fun kv => kv.1 == k) then
    fs.map (fun kv => if kv.1 == k then (k, v) else kv)
  else fs ++ [(k, v)]

mutual

/-- JSON value parser, fuel-bounded; `parseJson` supplies ample fuel. -/
def pVal : Nat → List Char → Option (JVal × List Char)
  | 0, _ => none
  | fuel + 1, cs =>
    let cs := skipWs cs
    match cs with
    | [] => none
    | c :: t =>
      if c = chLBrace then
        match skipWs t with
        | d :: t2 =>
          if d = chRBrace then some (.jobj [], t2)
          else pObjRest fuel (skipWs t) []
        | [] => none
      else if c = chLBracket then
        match skipWs t with
        | d :: t2 =>
          if d = chRBracket then some (.jarr [], t2)
          else pArrRest fuel (skipWs t) []
        | [] => none
      else if c = chQuote then
        (pStringBody t).map (fun r => (.jstr (String.mk r.1), r.2))
      else if c = 'n' then
        match t with
        | 'u' :: 'l' :: 'l' :: t2 => some (.jnull, t2)
        | _ => none
      else if c = 't' then
        match t with
        | 'r' :: 'u' :: 'e' :: t2 => some (.jbool true, t2)
        | _ => none
      else if c = 'f' then
        match t with
        | 'a' :: 'l' :: 's' :: 'e' :: t2 => some (.jbool false, t2)
        | _ => none
      else
        (pNumber cs).map (fun r => (.jnum r.1, r.2))

/-- Array elements after `[` (non-empty case), accumulating in order. -/
def pArrRest : Nat → List Char → List JVal → Option (JVal × List Char)
  | 0, _, _ => none
  | fuel + 1, cs, acc =>
    match pVal fuel cs with
    | none => none
    | some (v, r) =>
      match skipWs r with
      | c :: t =>
        if c = ',' then pArrRest fuel t (acc ++ [v])
        else if c = chRBracket then some (.jarr (acc ++ [v]), t)
        else none
      | [] => none

/-- Object members after `{` (non-empty case), accumulating in order. -/
def pObjRest : Nat → List Char → List (String × JVal) → Option (JVal × List Char)
  | 0, _, _ => none
  | fuel + 1, cs, acc =>
    match skipWs cs with
    | c :: t =>
      if c = chQuote then
        match pStringBody t with
        | none => none
        | some (kcs, r1) =>
          match skipWs r1 with
          | d :: r2 =>
            if d = ':' then
              match pVal fuel r2 with
              | none => none
              | some (v, r3) =>
                let acc2 := objInsert acc (String.mk kcs) v
                match skipWs r3 with
                | e :: r4 =>
                  if e = ',' then pObjRest fuel r4 acc2
                  else if e = chRBrace then some (.jobj acc2, r4)
                  else none
                | [] => none
            else none
          | [] => none
      else none
    | [] => none

end

/-- `JSON.parse` as a total function: `none` models the thrown
`SyntaxError`, which the caller in the source catches. -/
def parseJson (s : String) : Option JVal :=
  match pVal (2 * s.toList.length + 2) s.toList with
  | some (v, rest) => if skipWs rest = [] then some v else none
  | none => none

/-! ### `JSON.stringify` (used only to build a webhook-failure log text) -/

def escapeJsonChar (c : Char) : List Char :=
  if c = chQuote then [chBackslash, chQuote]
  else if c = chBackslash then [chBackslash, chBackslash]
  else if c = Char.ofNat 10 then [chBackslash, 'n']
  else if c = Char.ofNat 13 then [chBackslash, 'r']
  else if c = Char.ofNat 9 then [chBackslash, 't']
  else if c = Char.ofNat 8 then [chBackslash, 'b']
  else if c = Char.ofNat 12 then [chBackslash, 'f']
  else [c]

def escapeJsonString (s : String) : String :=
  String.mk (chQuote :: (s.toList.flatMap escapeJsonChar) ++ [chQuote])

mutual

/-- `JSON.stringify` of the values reaching the manager's failure-log site.
`undefined` only appears here through template-literal coercion, hence the
textual `"undefined"`. -/
def jsonStringify : JVal → String
  | .jnull => "null"
  | .jundefined => "undefined"
  | .jbool b => if b then "true" else "false"
  | .jnum q => jsNumToString q
  | .jstr s => escapeJsonString s
  | .jarr xs => String.mk [chLBracket] ++ stringifyElems xs ++ String.mk [chRBracket]
  | .jobj fs => String.mk [chLBrace] ++ stringifyFields fs ++ String.mk [chRBrace]

def stringifyElems : List JVal → String
  | [] => ""
  | [x] => jsonStringify x
  | x :: y :: t => jsonStringify x ++ "," ++ stringifyElems (y :: t)

def stringifyFields : List (String × JVal) → String
  | [] => ""
  | [kv] => escapeJsonString kv.1 ++ ":" ++ jsonStringify kv.2
  | kv :: kv2 :: t => escapeJsonString kv.1 ++ ":" ++ jsonStringify kv.2 ++ "," ++ stringifyFields (kv2 :: t)

end

/-! ### Data model

`DeviceRow` mirrors a row of the `devices` table
(`src/src/models/database.js`): `webhook_enabled` and
`webhook_response_enabled` are 0/1 integer columns, modelled as `Bool`
(identical truthiness); nullable text columns are `Option String`.
`Msg` is the inbound message object delivered by the Session Provider,
restricted to the properties the manager reads. -/

structure DeviceRow where
  name : String
  phone_number : Option String
  status : String
  webhook_url : Option String
  webhook_enabled : Bool
  webhook_response_enabled : Bool
  webhook_body_template : Option String
  webhook_response_path : Option String
  qr_code : Option String
deriving DecidableEq, Repr

/-- Inbound message event object (`msg`): the fields the manager reads.
`fromAddr`/`toAddr` stand for `msg.from`/`msg.to` (`from` is a Lean
keyword); `notifyName` is `msg._data.notifyName`. -/
structure Msg where
  isStatus : Bool
  idSerialized : String
  fromAddr : String
  toAddr : String
  body : String
  msgType : String
  timestamp : Int
  notifyName : Option String
  hasMedia : Bool
  isForwarded : Bool
  broadcast : Bool
deriving DecidableEq, Repr

/-- A row of the `messages` table, as assembled by the manager. -/
structure MsgRecord where
  id : String
  device_id : String
  message_id : String
  from_number : String
  to_number : String
  message_body : String
  message_type : String
  timestamp : Int
  direction : String
deriving DecidableEq, Repr

/-- The sent-message descriptor the Session Provider's `sendMessage`
resolves with (the fields the manager reads from `sentMsg`). -/
structure SentMsg where
  idSerialized : String
  fromAddr : String
  toAddr : String
  timestamp : Int
deriving DecidableEq, Repr

/-- Session Store content the manager consults (`deviceModel`). -/
structure Store where
  devices : List (String × DeviceRow)
deriving DecidableEq, Repr

/-- First-match association lookup over the device table. -/
def alistFind (l : List (String × DeviceRow)) (k : String) : Option DeviceRow :=
  match l with
  | [] => none
  | kv :: t => if kv.1 = k then some kv.2 else alistFind t k

/-- `deviceModel.findById` (SQL point lookup). -/
def findById (st : Store) (id : String) : Option DeviceRow :=
  alistFind st.devices id

/-- `deviceModel.update(id, …)` as a row transformation: SQL `UPDATE` on a
missing id is a no-op. -/
def storeUpdate (st : Store) (id : String) (f : DeviceRow → DeviceRow) : Store :=
  { devices := st.devices.map (fun kv => if kv.1 = id then (kv.1, f kv.2) else kv) }

/-- Observable effects of one run through the manager, in program order:
message persistence (`messageModel.create`), counter increments
(`statsModel.increment`), store log records (`logModel.create`), the HTTP
post of the webhook payload, and the Session Provider send
(`client.sendMessage`). -/
inductive Ev where
  | persist (r : MsgRecord)
  | incr (counter : String)
  | logRec (level : String) (text : String)
  | webhookPost (url : String) (payload : JVal)
  | provSend (chatId : String) (body : String)

/-- Outcome of the `axios.post` webhook delivery attempt.  With
`validateStatus: (status) => status < 600`, a received HTTP response with
status `< 600` resolves; a received status `≥ 600` rejects with
`error.response` set; the remaining constructors are network-level
rejections (`error.response` unset). -/
inductive HttpOut where
  | resp (status : Nat) (data : JVal)
  | connRefused
  | timedOut
  | netErr (emsg : String)

/-- JS truthiness of a nullable text column (`null` and `''` are falsy). -/
def optStrTruthy : Option String → Bool
  | none => false
  | some s => decide (s ≠ "")

/-- Helper: `sub` occurs as a contiguous run inside `s`. -/
def listContainsSub : List Char → List Char → Bool
  | s, sub =>
    match s with
    | [] => sub.isEmpty
    | _ :: t => sub.isPrefixOf s || listContainsSub t sub

/-- JS `s.includes(sub)`. -/
def jsIncludes (s sub : String) : Bool :=
  listContainsSub s.toList sub.toList

/-- JS `s.includes(c)` for a single character. -/
def jsContainsChar (s : String) (c : Char) : Bool :=
  s.toList.contains c

/-- JS `s.split(c)` for a single-character separator:
`''.split(c) = ['']`, adjacent separators yield empty segments. -/
def splitCharAux (c : Char) : List Char → List Char → List String
  | [], acc => [String.mk acc.reverse]
  | x :: t, acc =>
    if x = c then String.mk acc.reverse :: splitCharAux c t []
    else splitCharAux c t (x :: acc)

def jsSplitChar (s : String) (c : Char) : List String :=
  splitCharAux c s.toList []

/-- Whitespace removed by JS `String.prototype.trim`
(ASCII whitespace and no-break space cover every use here). -/
def isJsTrimWs (c : Char) : Bool :=
  c = ' ' || c = Char.ofNat 9 || c = Char.ofNat 10 || c = Char.ofNat 11 ||
    c = Char.ofNat 12 || c = Char.ofNat 13 || c = Char.ofNat 160

/-- JS `s.trim()`. -/
def jsTrim (s : String) : String :=
  String.mk (((s.toList.dropWhile isJsTrimWs).reverse.dropWhile isJsTrimWs).reverse)

/-- JS `s.split('@')[0]` (the part before the first `@`, or all of `s`). -/
def localPart (s : String) : String :=
  (jsSplitChar s '@').headD ""

/-- `msg._data.notifyName || msg.from.split('@')[0]`, the expression used
for both the `from_name` and `chat_name` template variables and the default
payload's `from_name`. -/
def fromNameOf (msg : Msg) : String :=
  match msg.notifyName with
  | some s => if s ≠ "" then s else localPart msg.fromAddr
  | none => localPart msg.fromAddr

/-! ### Webhook Dispatch Pipeline (`src/unnamed/part_000`) -/

/-- The fixed template variable set passed to `buildDynamicPayload` by
`forwardToWebhook`, in `Object.keys` (insertion) order. -/
def templateVars (deviceId : String) (device : DeviceRow) (msg : Msg) : List (String × JVal) :=
  [("device_id", .jstr deviceId),
   ("device_name", .jstr device.name),
   ("device_phone", .jstr (device.phone_number.getD "")),
   ("message_id", .jstr msg.idSerialized),
   ("from", .jstr msg.fromAddr),
   ("to", .jstr msg.toAddr),
   ("from_name", .jstr (fromNameOf msg)),
   ("message", .jstr msg.body),
   ("message_type", .jstr msg.msgType),
   ("timestamp", .jnum (Rat.ofInt msg.timestamp)),
   ("is_group", .jbool (jsIncludes msg.fromAddr "@g.us")),
   ("chat_name", .jstr (fromNameOf msg)),
   ("has_media", .jbool msg.hasMedia),
   ("is_forwarded", .jbool msg.isForwarded),
   ("is_status", .jbool msg.isStatus),
   ("broadcast", .jbool msg.broadcast)]

/-- The text `.replace` inserts for a variable value: strings are passed
through as the replacement argument, numbers and booleans via
`String(value)`, anything else (the `else` branch of the source) as
`'null'`. -/
def replacementText : JVal → String
  | .jstr s => s
  | .jnum q => jsNumToString q
  | .jbool b => if b then "true" else "false"
  | _ => "null"

/-- The substitution loop of `buildDynamicPayload`: for each variable in
order, `jsonString = jsonString.replace(new RegExp('\x7b\x7bkey\x7d\x7d','g'), text)`. -/
def substTemplate (template : String) (vars : List (String × JVal)) : String :=
  vars.foldl
    (fun acc kv =>
      jsReplaceAll acc ("\x7b\x7b" ++ kv.1 ++ "\x7d\x7d") (replacementText kv.2))
    template

/-- The substitution that §4.3 of the spec describes: identical except that
string values are inserted literally rather than as a JS replacement
pattern.  Used only to compare the spec's words against the source. -/
def specLiteralSubst (template : String) (vars : List (String × JVal)) : String :=
  vars.foldl
    (fun acc kv =>
      literalReplaceAll acc ("\x7b\x7b" ++ kv.1 ++ "\x7d\x7d") (replacementText kv.2))
    template

/-- `buildDynamicPayload`: substitution followed by `JSON.parse`; `none`
models the thrown parse error, caught by `forwardToWebhook`. -/
def buildDynamicPayload (template : String) (vars : List (String × JVal)) : Option JVal :=
  parseJson (substTemplate template vars)

/-- `getDefaultPayload(deviceId, device, msg)`. -/
def getDefaultPayload (deviceId : String) (device : DeviceRow) (msg : Msg) : JVal :=
  .jobj
    [("device_id", .jstr deviceId),
     ("device_name", .jstr device.name),
     ("from", .jstr msg.fromAddr),
     ("to", .jstr msg.toAddr),
     ("message", .jstr msg.body),
     ("message_type", .jstr msg.msgType),
     ("timestamp", .jnum (Rat.ofInt msg.timestamp)),
     ("message_id", .jstr msg.idSerialized),
     ("from_name", .jstr (fromNameOf msg))]

/-- First truthy value of the probed fields, else `null`
(`a || b || c || d || null`). -/
def firstTruthyJs : List JVal → JVal
  | [] => .jnull
  | v :: vs => if truthy v then v else firstTruthyJs vs

/-- The dot-path loop of `extractResponseMessage`: each segment requires a
truthy object-typed current value owning the key, any miss returns `null`;
after the loop, `typeof current === 'string' ? current : null`. -/
def pathTraverse : List String → JVal → JVal
  | [], cur =>
    match cur with
    | .jstr s => .jstr s
    | _ => .jnull
  | seg :: rest, cur =>
    if truthy cur && isObjectType cur && hasKey cur seg then
      pathTraverse rest (getField cur seg)
    else .jnull

/-- `extractResponseMessage(responseData, responsePath)`.  The configured
path is a nullable text column (`Option String`); `!responsePath ||
!responsePath.trim()` selects the auto-detect branch. -/
def extractResponseMessage (responseData : JVal) (responsePath : Option String) : JVal :=
  if !optStrTruthy responsePath || jsTrim (responsePath.getD "") = "" then
    firstTruthyJs
      [getField responseData "reply", getField responseData "message",
       getField responseData "response", getField responseData "text"]
  else
    pathTraverse (jsSplitChar (responsePath.getD "") '.') responseData

/-- `sendMessage(deviceId, to, message)`.  `clients` is the key set of the
active-session map; `send` is the Session Provider's `client.sendMessage`
outcome; `uuid` the fresh record id.  Returns the effect trace and the JS
result (`.error` models a thrown error, rethrown by the source's catch
after a console log). -/
def sendMessage (clients : List String) (store : Store) (deviceId toAddr message uuid : String)
    (send : Except String SentMsg) : List Ev × Except String SentMsg :=
  if ¬ clients.contains deviceId then ([], .error "Device not found")
  else
    match findById store deviceId with
    | none =>
      ([], .error "Cannot read properties of undefined (reading 'status')")
    | some device =>
      if device.status ≠ "connected" then ([], .error "Device not connected")
      else
        let chatId := if jsContainsChar toAddr '@' then toAddr else toAddr ++ "@c.us"
        match send with
        | .error e => ([.provSend chatId message], .error e)
        | .ok sent =>
          let r : MsgRecord :=
            { id := uuid, device_id := deviceId, message_id := sent.idSerialized,
              from_number := sent.fromAddr, to_number := sent.toAddr,
              message_body := message, message_type := "chat",
              timestamp := sent.timestamp, direction := "outgoing" }
          ([.provSend chatId message, .persist r, .incr "messages_sent"], .ok sent)

/-- `handleWebhookResponse(deviceId, device, msg, responseData)`.
`if (replyMessage && replyMessage.trim())`: a falsy extraction result takes
the warn branch; a truthy non-string makes `.trim()` throw a `TypeError`,
swallowed by the surrounding catch; a truthy string with non-blank trim is
sent back to `msg.from` through `sendMessage`.  A `sendMessage` failure is
caught here and logged, never rethrown. -/
def handleWebhookResponse (clients : List String) (store : Store) (deviceId : String)
    (device : DeviceRow) (msg : Msg) (responseData : JVal) (uuid : String)
    (send : Except String SentMsg) : List Ev :=
  let replyMessage := extractResponseMessage responseData device.webhook_response_path
  if truthy replyMessage then
    match replyMessage with
    | .jstr s =>
      if jsTrim s ≠ "" then
        let sendRun := sendMessage clients store deviceId msg.fromAddr s uuid send
        match sendRun.2 with
        | .ok _ => sendRun.1 ++ [.logRec "info" ("Auto-reply sent to " ++ msg.fromAddr)]
        | .error e => sendRun.1 ++ [.logRec "error" ("Auto-reply failed: " ++ e)]
      else [.logRec "warn" "No reply message found in response"]
    | _ =>
      [.logRec "error" "Auto-reply failed: replyMessage.trim is not a function"]
  else [.logRec "warn" "No reply message found in response"]

/-- Stand-in for the V8 `SyntaxError` message of a failed `JSON.parse`
(the exact wording is engine-specific and never inspected). -/
def jsonParseErrMsg : String := "Unexpected token in JSON"

/-- `forwardToWebhook(deviceId, device, msg, messageData)`.  The payload is
the rendered template when one is configured and rendering succeeds, else
the default payload; the post is attempted once; the `webhook_calls`
counter is incremented only after a resolved response (status < 600); a
2xx response with truthy data and `webhook_response_enabled` triggers the
auto-reply path; every failure is caught and logged here. -/
def forwardToWebhook (clients : List String) (store : Store) (deviceId : String)
    (device : DeviceRow) (msg : Msg) (uuid : String) (http : HttpOut)
    (send : Except String SentMsg) : List Ev :=
  let payloadRun : List Ev × JVal :=
    if optStrTruthy device.webhook_body_template then
      match buildDynamicPayload (device.webhook_body_template.getD "")
              (templateVars deviceId device msg) with
      | some p => ([.logRec "info" "Custom payload built"], p)
      | none =>
        ([.logRec "error" ("Payload error: " ++ jsonParseErrMsg),
          .logRec "warn" "Using default payload"],
         getDefaultPayload deviceId device msg)
    else ([], getDefaultPayload deviceId device msg)
  let url := device.webhook_url.getD ""
  let evs := payloadRun.1 ++ [.logRec "info" "Calling webhook...",
                              .webhookPost url payloadRun.2]
  match http with
  | .resp status data =>
    if status < 600 then
      let evs2 := evs ++ [.incr "webhook_calls"]
      if 200 ≤ status ∧ status < 300 then
        let evs3 := evs2 ++ [.logRec "info" ("Webhook success: " ++ toString status)]
        if device.webhook_response_enabled && truthy data then
          evs3 ++ handleWebhookResponse clients store deviceId device msg data uuid send
        else evs3
      else evs2 ++ [.logRec "warn" ("Webhook returned " ++ toString status)]
    else
      evs ++ [.logRec "error"
        ("Webhook failed: HTTP " ++ toString status ++ ": " ++ jsonStringify data)]
  | .connRefused =>
    evs ++ [.logRec "error" "Webhook failed: Connection refused - webhook server unreachable"]
  | .timedOut =>
    evs ++ [.logRec "error" "Webhook failed: timeout of 10000ms exceeded"]
  | .netErr emsg =>
    evs ++ [.logRec "error" ("Webhook failed: " ++ emsg)]

/-- The `messageData` record assembled for an inbound message. -/
def inboundRecord (deviceId : String) (msg : Msg) (uuidIn : String) : MsgRecord :=
  { id := uuidIn, device_id := deviceId, message_id := msg.idSerialized,
    from_number := msg.fromAddr, to_number := msg.toAddr,
    message_body := msg.body, message_type := msg.msgType,
    timestamp := msg.timestamp, direction := "incoming" }

/-- `handleIncomingMessage(deviceId, msg)`.  Status messages are dropped
before any effect; otherwise the inbound message is recorded, the received
counter incremented and a store log appended, and the webhook pipeline runs
only for a device with webhooks enabled and a truthy URL.  The surrounding
try/catch makes the handler total (modelled effects cannot throw; every
throwing operation inside `forwardToWebhook` is caught there). -/
def handleIncomingMessage (clients : List String) (store : Store) (deviceId : String)
    (msg : Msg) (uuidIn uuidReply : String) (http : HttpOut)
    (send : Except String SentMsg) : List Ev :=
  if msg.isStatus then []
  else
    let evs : List Ev :=
      [.persist (inboundRecord deviceId msg uuidIn), .incr "messages_received",
       .logRec "info" ("Received from " ++ msg.fromAddr ++ ": " ++ msg.msgType)]
    match findById store deviceId with
    | some device =>
      if device.webhook_enabled && optStrTruthy device.webhook_url then
        evs ++ forwardToWebhook clients store deviceId device msg uuidReply http send
      else evs
    | none => evs

/-! ### Session Orchestrator registry (`createDevice`, `disconnectDevice`,
`disconnectAll`) -/

/-- In-memory orchestrator state: the active-client key list (`this.clients`
in map insertion order), the `this.initializationAttempts` map, and the
Session Store. -/
structure Registry where
  clients : List String
  attempts : List (String × Nat)
  store : Store
deriving DecidableEq, Repr

/-- `this.maxRetries`. -/
def maxRetries : Nat := 3

/-- First-match association lookup over the attempts map. -/
def alistLookup (l : List (String × Nat)) (k : String) : Option Nat :=
  match l with
  | [] => none
  | kv :: t => if kv.1 = k then some kv.2 else alistLookup t k

/-- `this.initializationAttempts.get(deviceId) || 0`. -/
def getAttempts (reg : Registry) (deviceId : String) : Nat :=
  (alistLookup reg.attempts deviceId).getD 0

/-- `Map.set`: replace in place if present, else append. -/
def alistSet (l : List (String × Nat)) (k : String) (v : Nat) : List (String × Nat) :=
  if l.any (fun kv => decide (kv.1 = k)) then
    l.map (fun kv => if kv.1 = k then (k, v) else kv)
  else l ++ [(k, v)]

/-- `Map.delete`. -/
def alistErase (l : List (String × Nat)) (k : String) : List (String × Nat) :=
  l.filter (fun kv => kv.1 ≠ k)

/-- Result of `createDevice` as seen by the caller. -/
inductive CreateResult where
  | alreadyExists
  | retryLimitExceeded
  | initFailed
  | created
deriving DecidableEq, Repr

/-- `createDevice(deviceId, name)`.  `initOk` is the oracle for whether the
timeout-raced `client.initialize()` succeeds.  On failure the catch removes
the client, bumps the attempt count, best-effort destroys the client
(destroy failures only logged) and rethrows (`initFailed`); on success the
attempt count entry is deleted.  The `name` parameter is accepted and, as
in the source, unused. -/
def createDevice (reg : Registry) (deviceId _name : String) (initOk : Bool) :
    CreateResult × Registry :=
  if reg.clients.contains deviceId then (.alreadyExists, reg)
  else
    let attempts := getAttempts reg deviceId
    if attempts ≥ maxRetries then (.retryLimitExceeded, reg)
    else
      let reg1 : Registry :=
        { reg with
          clients := reg.clients ++ [deviceId],
          store := storeUpdate reg.store deviceId (fun r => { r with status := "initializing" }) }
      if initOk then
        (.created, { reg1 with attempts := alistErase reg1.attempts deviceId })
      else
        (.initFailed,
         { reg1 with
           clients := reg1.clients.filter (fun c => c ≠ deviceId),
           attempts := alistSet reg1.attempts deviceId (attempts + 1) })

/-- `disconnectDevice(deviceId)`.  `destroyOk` is the oracle for
`client.destroy()`.  When the destroy throws, the catch only logs: the
client is not removed from the map and the store row is untouched. -/
def disconnectDevice (reg : Registry) (deviceId : String) (destroyOk : Bool) :
    Registry × List Ev :=
  if reg.clients.contains deviceId then
    if destroyOk then
      ({ reg with
         clients := reg.clients.filter (fun c => c ≠ deviceId),
         store := storeUpdate reg.store deviceId
           (fun r => { r with status := "disconnected", qr_code := none }) },
       [.logRec "info" "Device disconnected"])
    else (reg, [])
  else (reg, [])

/-- One device's teardown inside the `disconnectAll` fan-out. -/
def disconnectAllStep (destroyOk : String → Bool) (acc : Registry × List Ev)
    (d : String) : Registry × List Ev :=
  let step := disconnectDevice acc.1 d (destroyOk d)
  (step.1, acc.2 ++ step.2)

/-- `disconnectAll()`: a teardown per active device, all awaited via
`Promise.all`.  Per-device teardowns touch disjoint state, so the fan-out
is modelled as a fold over the key list captured at entry; `disconnectDevice`
never rejects (its catch swallows), so `Promise.all` always waits for every
device. -/
def disconnectAll (reg : Registry) (destroyOk : String → Bool) : Registry × List Ev :=
  reg.clients.foldl (disconnectAllStep destroyOk) (reg, [])

/-! ### Trace observations used by the theorems -/

/-- The record persisted with direction `incoming`. -/
def isPersistIncoming : Ev → Bool
  | .persist r => r.direction == "incoming"
  | _ => false

/-- An increment of the named counter. -/
def isIncrOf (counter : String) : Ev → Bool
  | .incr c => c == counter
  | _ => false

/-- A webhook HTTP post. -/
def isWebhookPost : Ev → Bool
  | .webhookPost _ _ => true
  | _ => false

/-- A Session Provider send. -/
def isProvSend : Ev → Bool
  | .provSend _ _ => true
  | _ => false

/-- Number of events of a kind in a trace. -/
def countEv (p : Ev → Bool) (tr : List Ev) : Nat :=
  (tr.filter p).length

/-- The payload `forwardToWebhook` posts: the rendered template when one is
configured (truthy) and parses, else the default payload. -/
def payloadFor (deviceId : String) (device : DeviceRow) (msg : Msg) : JVal :=
  if optStrTruthy device.webhook_body_template then
    match buildDynamicPayload (device.webhook_body_template.getD "")
            (templateVars deviceId device msg) with
    | some p => p
    | none => getDefaultPayload deviceId device msg
  else getDefaultPayload deviceId device msg

/-! ### Concrete fixtures for witnesses and counterexamples -/

/-- A connected device with webhooks and auto-reply configured, no body
template, response path `data.reply`. -/
def fixDev : DeviceRow :=
  { name := "Phone A", phone_number := some "628111", status := "connected",
    webhook_url := some "http://wh.example/hook", webhook_enabled := true,
    webhook_response_enabled := true, webhook_body_template := none,
    webhook_response_path := some "data.reply", qr_code := none }

def fixStore : Store := { devices := [("d1", fixDev)] }

/-- A plain inbound chat message. -/
def fixMsg : Msg :=
  { isStatus := false, idSerialized := "MSG1", fromAddr := "6281@c.us",
    toAddr := "628111@c.us", body := "hi", msgType := "chat", timestamp := 1000,
    notifyName := some "Alice", hasMedia := false, isForwarded := false,
    broadcast := false }

/-- The same message with body `$$`, a JS replacement pattern. -/
def fixMsgDollar : Msg := { fixMsg with body := "$$" }

/-- Provider acknowledgment for a successful send. -/
def fixSent : SentMsg :=
  { idSerialized := "OUT1", fromAddr := "628111@c.us", toAddr := "6281@c.us",
    timestamp := 1001 }

/-- Template `\x7b"m":"\x7b\x7bmessage\x7d\x7d"\x7d`. -/
def tmplC3 : String := "\x7b\"m\":\"\x7b\x7bmessage\x7d\x7d\"\x7d"

/-- Fresh registry (no active clients, no recorded attempts). -/
def fixReg0 : Registry := { clients := [], attempts := [], store := fixStore }

/-- Registry with one active client. -/
def fixReg1 : Registry := { clients := ["d1"], attempts := [], store := fixStore }

/-- Webhook response body `\x7b"data":\x7b"reply":"ok!"\x7d\x7d` of the spec's
auto-reply scenario. -/
def fixRespBody : JVal := .jobj [("data", .jobj [("reply", .jstr "ok!")])]

/-- The fixture device with `tmplC3` configured as body template. -/
def fixDevTmpl : DeviceRow := { fixDev with webhook_body_template := some tmplC3 }

/-! ## Theorems -/

theorem countEv_append (p : Ev → Bool) (a b : List Ev) :
    countEv p (a ++ b) = countEv p a + countEv p b := by
  simp [countEv, List.filter_append]

theorem countEv_nil (p : Ev → Bool) : countEv p [] = 0 := rfl

theorem countEv_cons (p : Ev → Bool) (e : Ev) (t : List Ev) :
    countEv p (e :: t) = (if p e then 1 else 0) + countEv p t := by
  simp only [countEv, List.filter_cons]
  split <;> simp [Nat.add_comm]

/-- The dot-path loop returns a string or `null`, never another value. -/
theorem pathTraverse_str_or_null (segs : List String) (cur : JVal) :
    (∃ s, pathTraverse segs cur = .jstr s) ∨ pathTraverse segs cur = .jnull := by
  induction segs generalizing cur with
  | nil =>
    cases cur <;> simp [pathTraverse]
  | cons seg rest ih =>
    unfold pathTraverse
    split
    · exact ih _
    · right; rfl

/-- C10: a `responsePath` that is absent, empty, or whitespace-only is
treated as unconfigured: extraction behaves exactly as with no path at all,
probing the default field names instead of traversing whitespace segments
(checked on the concrete body `\x7b"message":"ok"\x7d` with path `"   "`). -/
theorem claim_C10_blank_path_auto_probe (body : JVal) (p : Option String)
    (h : p = none ∨ ∃ s, p = some s ∧ jsTrim s = "") :
    extractResponseMessage body p = extractResponseMessage body none ∧
    extractResponseMessage (JVal.jobj [("message", JVal.jstr "ok")]) (some "   ") = JVal.jstr "ok" := by
  refine ⟨?_, rfl⟩
  rcases h with h | ⟨s, rfl, hs⟩
  · rw [h]
  · simp [extractResponseMessage, optStrTruthy, hs]

theorem claim_C10_blank_path_auto_probe_witness :
    extractResponseMessage (JVal.jobj [("reply", JVal.jstr "r")]) (some "  ")
      = extractResponseMessage (JVal.jobj [("reply", JVal.jstr "r")]) none :=
  (claim_C10_blank_path_auto_probe (JVal.jobj [("reply", JVal.jstr "r")]) (some "  ")
    (Or.inr ⟨"  ", rfl, rfl⟩)).1

/-- C4 counterexample: with no path configured and body `\x7b"reply":5\x7d`, the
claim says the non-string `reply` is treated as absent and no reply results;
the code's `responseData.reply || …` chain returns the first truthy value of
any type, so it returns the number `5`. -/
theorem claim_C4_extract_auto_nonstring_counterexample :
    extractResponseMessage (JVal.jobj [("reply", JVal.jnum 5)]) none = JVal.jnum 5 ∧
    JVal.jnum 5 ≠ JVal.jnull ∧ (∀ s, JVal.jnum 5 ≠ JVal.jstr s) :=
  ⟨rfl, fun h => JVal.noConfusion h, fun _ h => JVal.noConfusion h⟩

/-- C4 (amended): with a configured dot-path, a reply is returned only when
every segment names an existing property and the final value is a string —
any miss or non-string final value yields `null` (the traversal can return
nothing but a string or `null`); with no path configured, the fields
`reply`, `message`, `response`, `text` are probed in that order and the
first *truthy* value is returned regardless of its type (falsy values,
including the empty string, are skipped; `null` when all four are falsy).
The claim's concrete examples hold as stated. -/
theorem claim_C4_extract_response_amended (body : JVal) (p : String)
    (hp : jsTrim p ≠ "") :
    ((∃ s, extractResponseMessage body (some p) = .jstr s) ∨
      extractResponseMessage body (some p) = .jnull) ∧
    (∀ b : JVal, extractResponseMessage b none =
      firstTruthyJs [getField b "reply", getField b "message",
                     getField b "response", getField b "text"]) ∧
    extractResponseMessage (JVal.jobj [("a", JVal.jobj [("b", JVal.jstr "hi")])]) (some "a.b")
      = JVal.jstr "hi" ∧
    extractResponseMessage (JVal.jobj [("a", JVal.jobj [])]) (some "a.b") = JVal.jnull ∧
    extractResponseMessage (JVal.jobj [("message", JVal.jstr "ok")]) none = JVal.jstr "ok" := by
  refine ⟨?_, fun b => rfl, rfl, rfl, rfl⟩
  have hne : p ≠ "" := by
    intro h; exact hp (by simp [h, jsTrim])
  simp only [extractResponseMessage, optStrTruthy, Option.getD]
  simp [hne, hp, pathTraverse_str_or_null]

theorem claim_C4_extract_response_amended_witness :
    (∃ s, extractResponseMessage (JVal.jobj [("x", JVal.jnum 1)]) (some "x.y") = .jstr s) ∨
      extractResponseMessage (JVal.jobj [("x", JVal.jnum 1)]) (some "x.y") = .jnull :=
  (claim_C4_extract_response_amended (JVal.jobj [("x", JVal.jnum 1)]) "x.y"
    (by decide)).1

/-! ### Pipeline trace lemmas -/

/-- Every event a `sendMessage` run can emit: the provider send (with the
normalized chat id), the outgoing record, the sent-counter increment. -/
theorem sendMessage_events (clients : List String) (store : Store)
    (deviceId toA m u : String) (send : Except String SentMsg) (ev : Ev)
    (hev : ev ∈ (sendMessage clients store deviceId toA m u send).1) :
    (∃ b, ev = .provSend (if jsContainsChar toA '@' then toA else toA ++ "@c.us") b) ∨
    (∃ r, ev = .persist r ∧ r.direction = "outgoing") ∨
    ev = .incr "messages_sent" := by
  unfold sendMessage at hev
  repeat' split at hev
  all_goals simp_all
  all_goals aesop

/-- Under the guards (active client, store row `connected`), the trace of a
`sendMessage` run starts with the provider send of `m` to the normalized
address, whatever the provider outcome is. -/
theorem sendMessage_head (clients : List String) (store : Store)
    (deviceId toA m u : String) (send : Except String SentMsg)
    (device : DeviceRow)
    (h1 : deviceId ∈ clients)
    (h2 : findById store deviceId = some device)
    (h3 : device.status = "connected") :
    ∃ rest, (sendMessage clients store deviceId toA m u send).1
      = .provSend (if jsContainsChar toA '@' then toA else toA ++ "@c.us") m :: rest := by
  unfold sendMessage
  rw [h2]
  cases send <;> simp [h1, h3]

/-- A failing guard yields an empty trace and the corresponding error. -/
theorem sendMessage_guard_fail (clients : List String) (store : Store)
    (deviceId toA m u : String) (send : Except String SentMsg)
    (h : deviceId ∉ clients ∨ findById store deviceId = none ∨
         ∃ device, findById store deviceId = some device ∧ device.status ≠ "connected") :
    (sendMessage clients store deviceId toA m u send).1 = [] := by
  unfold sendMessage
  rcases h with h | h | ⟨device, hd, hs⟩
  · simp [h]
  · simp [h]
    split <;> rfl
  · rw [hd]
    by_cases hc : deviceId ∈ clients
    · simp [hc, hs]
    · simp [hc]

/-- Every event of the auto-reply handler: a provider send to the sender's
normalized address, an outgoing record, a sent-counter increment, or a log
record. -/
theorem handleWebhookResponse_events (clients : List String) (store : Store)
    (deviceId : String) (device : DeviceRow) (msg : Msg) (data : JVal)
    (u : String) (send : Except String SentMsg) (ev : Ev)
    (hev : ev ∈ handleWebhookResponse clients store deviceId device msg data u send) :
    (∃ b, ev = .provSend
        (if jsContainsChar msg.fromAddr '@' then msg.fromAddr else msg.fromAddr ++ "@c.us") b) ∨
    (∃ r, ev = .persist r ∧ r.direction = "outgoing") ∨
    ev = .incr "messages_sent" ∨ (∃ lv t, ev = .logRec lv t) := by
  simp only [handleWebhookResponse] at hev
  repeat' split at hev
  all_goals
    first
    | (simp at hev; subst hev; exact Or.inr (Or.inr (Or.inr ⟨_, _, rfl⟩)))
    | (rcases List.mem_append.1 hev with h | h
       · rcases sendMessage_events _ _ _ _ _ _ _ _ h with h | h | h
         · exact Or.inl h
         · exact Or.inr (Or.inl h)
         · exact Or.inr (Or.inr (Or.inl h))
       · simp at h; subst h; exact Or.inr (Or.inr (Or.inr ⟨_, _, rfl⟩)))

/-- The auto-reply handler attempts a provider send exactly when extraction
yields a string with non-blank trim and the orchestrator guards pass; the
send goes to the sender's normalized address with the extracted text. -/
theorem handleWebhookResponse_provSend (clients : List String) (store : Store)
    (deviceId : String) (device : DeviceRow) (msg : Msg) (data : JVal)
    (u : String) (send : Except String SentMsg)
    (h1 : deviceId ∈ clients)
    (h2 : findById store deviceId = some device)
    (h3 : device.status = "connected") :
    ((∃ a b, Ev.provSend a b ∈ handleWebhookResponse clients store deviceId device msg data u send) ↔
      (∃ r, extractResponseMessage data device.webhook_response_path = .jstr r ∧ jsTrim r ≠ "")) ∧
    (∀ r, extractResponseMessage data device.webhook_response_path = .jstr r → jsTrim r ≠ "" →
      Ev.provSend (if jsContainsChar msg.fromAddr '@' then msg.fromAddr else msg.fromAddr ++ "@c.us") r
        ∈ handleWebhookResponse clients store deviceId device msg data u send) := by
  constructor
  · constructor
    · rintro ⟨a, b, hab⟩
      simp only [handleWebhookResponse] at hab
      repeat' split at hab
      all_goals simp_all
    · rintro ⟨r, hr, htrim⟩
      obtain ⟨rest, hrest⟩ :=
        sendMessage_head clients store deviceId msg.fromAddr r u send device h1 h2 h3
      refine ⟨(if jsContainsChar msg.fromAddr '@' then msg.fromAddr else msg.fromAddr ++ "@c.us"),
        r, ?_⟩
      simp only [handleWebhookResponse, hr]
      have htr : truthy (JVal.jstr r) = true := by
        simp [truthy]
        intro h
        exact htrim (by simp [h, jsTrim])
      rw [if_pos htr, if_pos htrim]
      split <;> (rw [hrest]; simp)
  · intro r hr htrim
    obtain ⟨rest, hrest⟩ :=
      sendMessage_head clients store deviceId msg.fromAddr r u send device h1 h2 h3
    simp only [handleWebhookResponse, hr]
    have htr : truthy (JVal.jstr r) = true := by
      simp [truthy]
      intro h
      exact htrim (by simp [h, jsTrim])
    rw [if_pos htr, if_pos htrim]
    split <;> (rw [hrest]; simp)

theorem countEv_eq_zero (p : Ev → Bool) (tr : List Ev)
    (h : ∀ ev ∈ tr, p ev = false) : countEv p tr = 0 := by
  simp only [countEv, List.length_eq_zero, List.filter_eq_nil_iff]
  intro a ha
  simp [h a ha]

/-- The auto-reply handler touches neither the webhook counter, nor the
received counter, nor incoming records, nor the HTTP post. -/
theorem handleWebhookResponse_counters (clients : List String) (store : Store)
    (deviceId : String) (device : DeviceRow) (msg : Msg) (data : JVal)
    (u : String) (send : Except String SentMsg) :
    countEv (isIncrOf "webhook_calls")
        (handleWebhookResponse clients store deviceId device msg data u send) = 0 ∧
    countEv (isIncrOf "messages_received")
        (handleWebhookResponse clients store deviceId device msg data u send) = 0 ∧
    countEv isPersistIncoming
        (handleWebhookResponse clients store deviceId device msg data u send) = 0 ∧
    countEv isWebhookPost
        (handleWebhookResponse clients store deviceId device msg data u send) = 0 := by
  refine ⟨countEv_eq_zero _ _ ?_, countEv_eq_zero _ _ ?_,
          countEv_eq_zero _ _ ?_, countEv_eq_zero _ _ ?_⟩
  all_goals
    intro ev hev
    rcases handleWebhookResponse_events clients store deviceId device msg data u send ev hev
      with ⟨b, rfl⟩ | ⟨r, rfl, hr⟩ | rfl | ⟨lv, t, rfl⟩
  all_goals simp [isIncrOf, isPersistIncoming, isWebhookPost]
  all_goals simp [hr]

/-- Under the guards, a send-oracle failure in the auto-reply path leaves
the `Auto-reply failed` store log in the trace. -/
theorem handleWebhookResponse_sendError (clients : List String) (store : Store)
    (deviceId : String) (device : DeviceRow) (msg : Msg) (data : JVal)
    (u e : String) (r : String)
    (h1 : deviceId ∈ clients)
    (h2 : findById store deviceId = some device)
    (h3 : device.status = "connected")
    (hr : extractResponseMessage data device.webhook_response_path = .jstr r)
    (htrim : jsTrim r ≠ "") :
    Ev.logRec "error" ("Auto-reply failed: " ++ e)
      ∈ handleWebhookResponse clients store deviceId device msg data u (.error e) := by
  simp only [handleWebhookResponse, hr]
  have htr : truthy (JVal.jstr r) = true := by
    simp [truthy]
    intro h
    exact htrim (by simp [h, jsTrim])
  rw [if_pos htr, if_pos htrim]
  have hsend : (sendMessage clients store deviceId msg.fromAddr r u (.error e)).2 = .error e := by
    unfold sendMessage
    rw [h2]
    simp [h1, h3]
  rw [hsend]
  simp

/-- Counter effects of one webhook forwarding run: `webhook_calls` is
incremented exactly once when an HTTP response (any status < 600) is
received and never otherwise; the received counter and incoming records are
untouched. -/
theorem forwardToWebhook_counts (clients : List String) (store : Store)
    (deviceId : String) (device : DeviceRow) (msg : Msg) (u : String)
    (http : HttpOut) (send : Except String SentMsg) :
    countEv (isIncrOf "webhook_calls")
        (forwardToWebhook clients store deviceId device msg u http send) =
      (match http with
       | .resp s _ => if s < 600 then 1 else 0
       | _ => 0) ∧
    countEv (isIncrOf "messages_received")
        (forwardToWebhook clients store deviceId device msg u http send) = 0 ∧
    countEv isPersistIncoming
        (forwardToWebhook clients store deviceId device msg u http send) = 0 := by
  cases http with
  | resp s data =>
    obtain ⟨hc1, hc2, hc3, _⟩ :=
      handleWebhookResponse_counters clients store deviceId device msg data u send
    refine ⟨?_, ?_, ?_⟩ <;>
      (simp only [forwardToWebhook]
       repeat' split
       all_goals
         simp [countEv_append, countEv_cons, countEv_nil, isIncrOf, isPersistIncoming,
           hc1, hc2, hc3])
  | connRefused =>
    refine ⟨?_, ?_, ?_⟩ <;>
      (simp only [forwardToWebhook]
       repeat' split
       all_goals
         simp [countEv_append, countEv_cons, countEv_nil, isIncrOf, isPersistIncoming])
  | timedOut =>
    refine ⟨?_, ?_, ?_⟩ <;>
      (simp only [forwardToWebhook]
       repeat' split
       all_goals
         simp [countEv_append, countEv_cons, countEv_nil, isIncrOf, isPersistIncoming])
  | netErr emsg =>
    refine ⟨?_, ?_, ?_⟩ <;>
      (simp only [forwardToWebhook]
       repeat' split
       all_goals
         simp [countEv_append, countEv_cons, countEv_nil, isIncrOf, isPersistIncoming])

/-- A forwarding run posts exactly one HTTP request, whose payload is the
rendered template when configured and parseable and the default payload
otherwise, to the device's webhook URL. -/
theorem forwardToWebhook_post (clients : List String) (store : Store)
    (deviceId : String) (device : DeviceRow) (msg : Msg) (u : String)
    (http : HttpOut) (send : Except String SentMsg) :
    (forwardToWebhook clients store deviceId device msg u http send).filter isWebhookPost
      = [.webhookPost (device.webhook_url.getD "") (payloadFor deviceId device msg)] := by
  cases http with
  | resp s data =>
    have hc4 := (handleWebhookResponse_counters clients store deviceId device msg data u send).2.2.2
    have hnil : (handleWebhookResponse clients store deviceId device msg data u send).filter
        isWebhookPost = [] := by
      simpa [countEv, List.length_eq_zero] using hc4
    simp only [forwardToWebhook]
    repeat' split
    all_goals
      simp_all [payloadFor, List.filter_append, isWebhookPost]
  | connRefused =>
    simp only [forwardToWebhook]
    repeat' split
    all_goals simp_all [payloadFor, List.filter_append, isWebhookPost]
  | timedOut =>
    simp only [forwardToWebhook]
    repeat' split
    all_goals simp_all [payloadFor, List.filter_append, isWebhookPost]
  | netErr emsg =>
    simp only [forwardToWebhook]
    repeat' split
    all_goals simp_all [payloadFor, List.filter_append, isWebhookPost]

/-- Any provider send inside a forwarding run goes to the inbound sender's
normalized address. -/
theorem forwardToWebhook_provSend_shape (clients : List String) (store : Store)
    (deviceId : String) (device : DeviceRow) (msg : Msg) (u : String)
    (http : HttpOut) (send : Except String SentMsg) (a b : String)
    (h : Ev.provSend a b ∈ forwardToWebhook clients store deviceId device msg u http send) :
    a = (if jsContainsChar msg.fromAddr '@' then msg.fromAddr else msg.fromAddr ++ "@c.us") := by
  simp only [forwardToWebhook] at h
  repeat' split at h
  all_goals simp_all [List.mem_append]
  all_goals
    rcases handleWebhookResponse_events clients store deviceId device msg _ u send _ h
      with ⟨b2, hb⟩ | ⟨r, hb, _⟩ | hb | ⟨lv, t, hb⟩ <;> simp_all

/-- Under the orchestrator guards, a forwarding run attempts a reply send
exactly when auto-reply is enabled, the response is 2xx with truthy data,
and extraction yields a string with non-blank trim. -/
theorem forwardToWebhook_provSend_iff (clients : List String) (store : Store)
    (deviceId : String) (device : DeviceRow) (msg : Msg) (u : String)
    (http : HttpOut) (send : Except String SentMsg)
    (h1 : deviceId ∈ clients)
    (h2 : findById store deviceId = some device)
    (h3 : device.status = "connected") :
    ((∃ a b, Ev.provSend a b ∈ forwardToWebhook clients store deviceId device msg u http send) ↔
      (device.webhook_response_enabled = true ∧
        ∃ s data, http = .resp s data ∧ 200 ≤ s ∧ s < 300 ∧ truthy data = true ∧
          ∃ r, extractResponseMessage data device.webhook_response_path = .jstr r ∧
            jsTrim r ≠ "")) ∧
    (∀ s data r, http = .resp s data → 200 ≤ s → s < 300 → truthy data = true →
      device.webhook_response_enabled = true →
      extractResponseMessage data device.webhook_response_path = .jstr r → jsTrim r ≠ "" →
      Ev.provSend (if jsContainsChar msg.fromAddr '@' then msg.fromAddr else msg.fromAddr ++ "@c.us") r
        ∈ forwardToWebhook clients store deviceId device msg u http send) := by
  constructor
  · cases http with
    | resp s data =>
      have hhwr := handleWebhookResponse_provSend clients store deviceId device msg data u send h1 h2 h3
      constructor
      · rintro ⟨a, b, hab⟩
        simp only [forwardToWebhook] at hab
        by_cases h6 : s < 600
        · rw [if_pos h6] at hab
          by_cases h23 : 200 ≤ s ∧ s < 300
          · rw [if_pos h23] at hab
            by_cases hrt : (device.webhook_response_enabled && truthy data) = true
            · rw [if_pos hrt] at hab
              rcases List.mem_append.1 hab with h | h
              · exfalso
                repeat' split at h
                all_goals simp_all
              · obtain ⟨r, hr, htm⟩ := hhwr.1.mp ⟨a, b, h⟩
                obtain ⟨he, ht⟩ := (Bool.and_eq_true _ _).mp hrt
                exact ⟨he, s, data, rfl, h23.1, h23.2, ht, r, hr, htm⟩
            · rw [if_neg hrt] at hab
              exfalso
              repeat' split at hab
              all_goals simp_all
          · rw [if_neg h23] at hab
            exfalso
            repeat' split at hab
            all_goals simp_all
        · rw [if_neg h6] at hab
          exfalso
          repeat' split at hab
          all_goals simp_all
      · rintro ⟨hen, s2, data2, heq, hs1, hs2, htd, r, hr, htm⟩
        cases heq
        have hmem := hhwr.2 r hr htm
        refine ⟨(if jsContainsChar msg.fromAddr '@' then msg.fromAddr else msg.fromAddr ++ "@c.us"),
          r, ?_⟩
        simp only [forwardToWebhook]
        have h6 : s < 600 := by omega
        have h23 : 200 ≤ s ∧ s < 300 := ⟨hs1, hs2⟩
        have hrt : (device.webhook_response_enabled && truthy data) = true := by
          rw [hen, htd]; rfl
        rw [if_pos h6, if_pos h23, if_pos hrt]
        exact List.mem_append.2 (Or.inr hmem)
    | connRefused =>
      constructor
      · rintro ⟨a, b, hab⟩
        simp only [forwardToWebhook] at hab
        exfalso
        repeat' split at hab
        all_goals simp_all
      · rintro ⟨_, s, data, heq, _⟩
        exact absurd heq (by simp)
    | timedOut =>
      constructor
      · rintro ⟨a, b, hab⟩
        simp only [forwardToWebhook] at hab
        exfalso
        repeat' split at hab
        all_goals simp_all
      · rintro ⟨_, s, data, heq, _⟩
        exact absurd heq (by simp)
    | netErr emsg =>
      constructor
      · rintro ⟨a, b, hab⟩
        simp only [forwardToWebhook] at hab
        exfalso
        repeat' split at hab
        all_goals simp_all
      · rintro ⟨_, s, data, heq, _⟩
        exact absurd heq (by simp)
  · intro s data r heq hs1 hs2 htd hen hr htm
    subst heq
    have hhwr := handleWebhookResponse_provSend clients store deviceId device msg data u send h1 h2 h3
    have hmem := hhwr.2 r hr htm
    simp only [forwardToWebhook]
    have h6 : s < 600 := by omega
    have h23 : 200 ≤ s ∧ s < 300 := ⟨hs1, hs2⟩
    have hrt : (device.webhook_response_enabled && truthy data) = true := by
      rw [hen, htd]; rfl
    rw [if_pos h6, if_pos h23, if_pos hrt]
    exact List.mem_append.2 (Or.inr hmem)

/-- Under the guards, with auto-reply conditions met and a failing provider
send, the `Auto-reply failed` store log appears in the forwarding trace. -/
theorem forwardToWebhook_sendError (clients : List String) (store : Store)
    (deviceId : String) (device : DeviceRow) (msg : Msg) (u : String)
    (s : Nat) (data : JVal) (e r : String)
    (h1 : deviceId ∈ clients)
    (h2 : findById store deviceId = some device)
    (h3 : device.status = "connected")
    (hs1 : 200 ≤ s) (hs2 : s < 300) (htd : truthy data = true)
    (hen : device.webhook_response_enabled = true)
    (hr : extractResponseMessage data device.webhook_response_path = .jstr r)
    (htm : jsTrim r ≠ "") :
    Ev.logRec "error" ("Auto-reply failed: " ++ e)
      ∈ forwardToWebhook clients store deviceId device msg u (.resp s data) (.error e) := by
  have hmem := handleWebhookResponse_sendError clients store deviceId device msg data u e r
    h1 h2 h3 hr htm
  simp only [forwardToWebhook]
  have h6 : s < 600 := by omega
  have h23 : 200 ≤ s ∧ s < 300 := ⟨hs1, hs2⟩
  have hrt : (device.webhook_response_enabled && truthy data) = true := by
    rw [hen, htd]; rfl
  rw [if_pos h6, if_pos h23, if_pos hrt]
  exact List.mem_append.2 (Or.inr hmem)

/-- For a non-status message on a device with webhooks enabled and a truthy
URL, the inbound handler's trace is the record/counter/log prefix followed
by the forwarding run. -/
theorem handleIncomingMessage_eq (clients : List String) (store : Store)
    (deviceId : String) (msg : Msg) (u1 u2 : String) (http : HttpOut)
    (send : Except String SentMsg) (device : DeviceRow)
    (hst : msg.isStatus = false)
    (hdev : findById store deviceId = some device)
    (hwe : device.webhook_enabled = true)
    (hurl : optStrTruthy device.webhook_url = true) :
    handleIncomingMessage clients store deviceId msg u1 u2 http send =
      Ev.persist (inboundRecord deviceId msg u1) :: Ev.incr "messages_received" ::
      Ev.logRec "info" ("Received from " ++ msg.fromAddr ++ ": " ++ msg.msgType) ::
      forwardToWebhook clients store deviceId device msg u2 http send := by
  simp only [handleIncomingMessage, hst, hdev]
  have hcond : (device.webhook_enabled && optStrTruthy device.webhook_url) = true := by
    rw [hwe, hurl]; rfl
  rw [if_neg (by simp), if_pos hcond]
  rfl

/-- C6: a status message is filtered out before the pipeline: nothing is
persisted, no counter is incremented, no webhook is called; every other
inbound message is persisted exactly once as an incoming record and
increments the received counter exactly once, at the head of the trace —
before any webhook post, which can only occur in the remaining trace. -/
theorem claim_C6_inbound_record_before_webhook (clients : List String) (store : Store)
    (deviceId : String) (msg : Msg) (u1 u2 : String) (http : HttpOut)
    (send : Except String SentMsg) :
    (msg.isStatus = true →
      handleIncomingMessage clients store deviceId msg u1 u2 http send = []) ∧
    (msg.isStatus = false →
      (inboundRecord deviceId msg u1).direction = "incoming" ∧
      ∃ rest, handleIncomingMessage clients store deviceId msg u1 u2 http send =
          Ev.persist (inboundRecord deviceId msg u1) :: Ev.incr "messages_received" :: rest ∧
        countEv isPersistIncoming
          (handleIncomingMessage clients store deviceId msg u1 u2 http send) = 1 ∧
        countEv (isIncrOf "messages_received")
          (handleIncomingMessage clients store deviceId msg u1 u2 http send) = 1 ∧
        ∀ u p, Ev.webhookPost u p ∈ handleIncomingMessage clients store deviceId msg u1 u2 http send →
          Ev.webhookPost u p ∈ rest) := by
  constructor
  · intro hst
    simp [handleIncomingMessage, hst]
  · intro hst
    refine ⟨rfl, ?_⟩
    simp only [handleIncomingMessage, hst]
    rw [if_neg (by simp)]
    cases hdev : findById store deviceId with
    | none =>
      dsimp only
      refine ⟨_, rfl, ?_, ?_, ?_⟩
      · simp [countEv_cons, countEv_nil, isPersistIncoming, inboundRecord, isIncrOf]
      · simp [countEv_cons, countEv_nil, isPersistIncoming, inboundRecord, isIncrOf]
      · intro u p hm
        simp at hm
    | some device =>
      dsimp only
      by_cases hcond : (device.webhook_enabled && optStrTruthy device.webhook_url) = true
      · rw [if_pos hcond]
        obtain ⟨_, hz2, hz3⟩ :=
          forwardToWebhook_counts clients store deviceId device msg u2 http send
        refine ⟨_, rfl, ?_, ?_, ?_⟩
        · simp [countEv_cons, isPersistIncoming, inboundRecord, isIncrOf, hz3]
        · simp [countEv_cons, isPersistIncoming, inboundRecord, isIncrOf, hz2]
        · intro u p hm
          simp at hm
          simpa using hm
      · rw [if_neg hcond]
        refine ⟨_, rfl, ?_, ?_, ?_⟩
        · simp [countEv_cons, countEv_nil, isPersistIncoming, inboundRecord, isIncrOf]
        · simp [countEv_cons, countEv_nil, isPersistIncoming, inboundRecord, isIncrOf]
        · intro u p hm
          simp at hm

theorem claim_C6_inbound_record_before_webhook_witness :
    handleIncomingMessage ["d1"] fixStore "d1" { fixMsg with isStatus := true } "u1" "u2"
        (HttpOut.resp 200 fixRespBody) (.ok fixSent) = [] ∧
    countEv isPersistIncoming
      (handleIncomingMessage ["d1"] fixStore "d1" fixMsg "u1" "u2"
        (HttpOut.resp 200 fixRespBody) (.ok fixSent)) = 1 :=
  ⟨(claim_C6_inbound_record_before_webhook ["d1"] fixStore "d1"
      { fixMsg with isStatus := true } "u1" "u2" (HttpOut.resp 200 fixRespBody) (.ok fixSent)).1
      rfl,
   by
    obtain ⟨-, -, -, h, -⟩ :=
      ((claim_C6_inbound_record_before_webhook ["d1"] fixStore "d1" fixMsg "u1" "u2"
        (HttpOut.resp 200 fixRespBody) (.ok fixSent)).2 rfl).2
    exact h⟩

/-- C2 counterexample: a device with webhooks enabled and a URL, a plain
inbound message, and a network-level delivery failure (connection refused):
the claim requires exactly one `webhook_calls` increment, but the code
increments only after `axios.post` resolves, so the counter stays at 0. -/
theorem claim_C2_webhook_counter_counterexample :
    countEv (isIncrOf "webhook_calls")
      (handleIncomingMessage ["d1"] fixStore "d1" fixMsg "u1" "u2"
        HttpOut.connRefused (.ok fixSent)) = 0 ∧
    countEv (isIncrOf "webhook_calls")
      (handleIncomingMessage ["d1"] fixStore "d1" fixMsg "u1" "u2"
        HttpOut.connRefused (.ok fixSent)) ≠ 1 :=
  ⟨rfl, by decide⟩

/-- C2 (amended): for every inbound non-status message on a device with
webhooks enabled and a URL, the `webhook_calls` counter is incremented
exactly once when the delivery attempt yields an HTTP response (any status
below 600, 2xx or not), and is not incremented at all when the attempt ends
in a network-level failure (connection refused, timeout, DNS/other) or a
status ≥ 600 rejection. -/
theorem claim_C2_webhook_counter_amended (clients : List String) (store : Store)
    (deviceId : String) (msg : Msg) (u1 u2 : String) (http : HttpOut)
    (send : Except String SentMsg) (device : DeviceRow)
    (hst : msg.isStatus = false)
    (hdev : findById store deviceId = some device)
    (hwe : device.webhook_enabled = true)
    (hurl : optStrTruthy device.webhook_url = true) :
    countEv (isIncrOf "webhook_calls")
        (handleIncomingMessage clients store deviceId msg u1 u2 http send) =
      (match http with
       | .resp s _ => if s < 600 then 1 else 0
       | _ => 0) := by
  rw [handleIncomingMessage_eq clients store deviceId msg u1 u2 http send device
    hst hdev hwe hurl]
  obtain ⟨hz1, _, _⟩ :=
    forwardToWebhook_counts clients store deviceId device msg u2 http send
  simp [countEv_cons, isIncrOf, hz1]

theorem claim_C2_webhook_counter_amended_witness :
    countEv (isIncrOf "webhook_calls")
        (handleIncomingMessage ["d1"] fixStore "d1" fixMsg "u1" "u2"
          (HttpOut.resp 503 JVal.jnull) (.ok fixSent)) = 1 :=
  claim_C2_webhook_counter_amended ["d1"] fixStore "d1" fixMsg "u1" "u2"
    (HttpOut.resp 503 JVal.jnull) (.ok fixSent) fixDev rfl rfl rfl rfl

/-- C9: with an active session whose persisted status is `connected`, the
address handed to the provider's send operation is `to` itself when it
contains `@` and `to ++ "@c.us"` otherwise; and every provider send of the
inbound pipeline — auto-replies included — uses the sender's address
normalized the same way. -/
theorem claim_C9_address_normalization (clients : List String) (store : Store)
    (deviceId toAddr m u : String) (send : Except String SentMsg) (device : DeviceRow)
    (h1 : deviceId ∈ clients)
    (h2 : findById store deviceId = some device)
    (h3 : device.status = "connected") :
    (∃ rest, (sendMessage clients store deviceId toAddr m u send).1
        = Ev.provSend (if jsContainsChar toAddr '@' then toAddr else toAddr ++ "@c.us") m :: rest) ∧
    (∀ (msg : Msg) (u1 u2 : String) (http : HttpOut) (sd : Except String SentMsg) (a b : String),
      Ev.provSend a b ∈ handleIncomingMessage clients store deviceId msg u1 u2 http sd →
      a = (if jsContainsChar msg.fromAddr '@' then msg.fromAddr else msg.fromAddr ++ "@c.us")) := by
  constructor
  · exact sendMessage_head clients store deviceId toAddr m u send device h1 h2 h3
  · intro msg u1 u2 http sd a b hmem
    simp only [handleIncomingMessage] at hmem
    by_cases hst : msg.isStatus = true
    · simp [hst] at hmem
    · rw [if_neg (by simp_all)] at hmem
      cases hdev : findById store deviceId with
      | none =>
        rw [hdev] at hmem
        simp at hmem
      | some dev2 =>
        rw [hdev] at hmem
        dsimp only at hmem
        by_cases hcond : (dev2.webhook_enabled && optStrTruthy dev2.webhook_url) = true
        · rw [if_pos hcond] at hmem
          rcases List.mem_cons.1 hmem with h | hmem2
          · exact absurd h (by simp)
          rcases List.mem_cons.1 hmem2 with h | hmem3
          · exact absurd h (by simp)
          rcases List.mem_cons.1 hmem3 with h | hmem4
          · exact absurd h (by simp)
          exact forwardToWebhook_provSend_shape clients store deviceId dev2 msg u2 http sd a b hmem4
        · rw [if_neg hcond] at hmem
          simp at hmem

theorem claim_C9_address_normalization_witness :
    (∃ rest, (sendMessage ["d1"] fixStore "d1" "6281" "hello" "u9" (.ok fixSent)).1
        = Ev.provSend "6281@c.us" "hello" :: rest) :=
  (claim_C9_address_normalization ["d1"] fixStore "d1" "6281" "hello" "u9" (.ok fixSent)
    fixDev (by decide) rfl rfl).1

/-- C7: under an active connected session with webhooks enabled, a reply is
sent back to the inbound sender exactly when `responseEnabled` is set, the
delivery returned 2xx with a truthy (non-empty) body, and extraction yields
a string that trims non-blank; in that case the extracted text is sent to
the sender's normalized address; a failing reply send leaves an
`Auto-reply failed` store log and the handler still returns its trace
(the failure is contained). -/
theorem claim_C7_auto_reply_iff (clients : List String) (store : Store)
    (deviceId : String) (msg : Msg) (u1 u2 : String) (http : HttpOut)
    (send : Except String SentMsg) (device : DeviceRow)
    (h1 : deviceId ∈ clients)
    (h2 : findById store deviceId = some device)
    (h3 : device.status = "connected")
    (hwe : device.webhook_enabled = true)
    (hurl : optStrTruthy device.webhook_url = true)
    (hst : msg.isStatus = false) :
    ((∃ a b, Ev.provSend a b ∈ handleIncomingMessage clients store deviceId msg u1 u2 http send) ↔
      (device.webhook_response_enabled = true ∧
        ∃ s data, http = .resp s data ∧ 200 ≤ s ∧ s < 300 ∧ truthy data = true ∧
          ∃ r, extractResponseMessage data device.webhook_response_path = .jstr r ∧
            jsTrim r ≠ "")) ∧
    (∀ s data r, http = .resp s data → 200 ≤ s → s < 300 → truthy data = true →
      device.webhook_response_enabled = true →
      extractResponseMessage data device.webhook_response_path = .jstr r → jsTrim r ≠ "" →
      Ev.provSend (if jsContainsChar msg.fromAddr '@' then msg.fromAddr else msg.fromAddr ++ "@c.us") r
        ∈ handleIncomingMessage clients store deviceId msg u1 u2 http send) ∧
    (∀ s data r e, http = .resp s data → send = .error e → 200 ≤ s → s < 300 →
      truthy data = true → device.webhook_response_enabled = true →
      extractResponseMessage data device.webhook_response_path = .jstr r → jsTrim r ≠ "" →
      Ev.logRec "error" ("Auto-reply failed: " ++ e)
        ∈ handleIncomingMessage clients store deviceId msg u1 u2 http send) := by
  have hEq := handleIncomingMessage_eq clients store deviceId msg u1 u2 http send device
    hst h2 hwe hurl
  obtain ⟨hiff, hmk⟩ :=
    forwardToWebhook_provSend_iff clients store deviceId device msg u2 http send h1 h2 h3
  refine ⟨?_, ?_, ?_⟩
  · rw [hEq]
    constructor
    · rintro ⟨a, b, hm⟩
      rcases List.mem_cons.1 hm with h | hm2
      · exact absurd h (by simp)
      rcases List.mem_cons.1 hm2 with h | hm3
      · exact absurd h (by simp)
      rcases List.mem_cons.1 hm3 with h | hm4
      · exact absurd h (by simp)
      exact hiff.mp ⟨a, b, hm4⟩
    · intro hrhs
      obtain ⟨a, b, hm⟩ := hiff.mpr hrhs
      exact ⟨a, b, by simp [hm]⟩
  · intro s data r heq hs1 hs2 htd hen hr htm
    rw [hEq]
    have := hmk s data r heq hs1 hs2 htd hen hr htm
    simp [this]
  · intro s data r e heq hsend hs1 hs2 htd hen hr htm
    subst heq; subst hsend
    rw [hEq]
    have := forwardToWebhook_sendError clients store deviceId device msg u2 s data e r
      h1 h2 h3 hs1 hs2 htd hen hr htm
    simp [this]

theorem claim_C7_auto_reply_iff_witness :
    Ev.provSend "6281@c.us" "ok!"
      ∈ handleIncomingMessage ["d1"] fixStore "d1" fixMsg "u1" "u2"
          (HttpOut.resp 200 fixRespBody) (.ok fixSent) := by
  exact (claim_C7_auto_reply_iff ["d1"] fixStore "d1" fixMsg "u1" "u2"
      (HttpOut.resp 200 fixRespBody) (.ok fixSent) fixDev
      (by decide) rfl rfl rfl rfl rfl).2.1
    200 fixRespBody "ok!" rfl (by decide) (by decide) rfl rfl rfl (by decide)

/-- When no template is configured (or it renders to invalid JSON), the
posted payload is the default payload. -/
theorem payloadFor_default (deviceId : String) (device : DeviceRow) (msg : Msg)
    (hcfg : device.webhook_body_template = none ∨ device.webhook_body_template = some "" ∨
      buildDynamicPayload (device.webhook_body_template.getD "")
        (templateVars deviceId device msg) = none) :
    payloadFor deviceId device msg = getDefaultPayload deviceId device msg := by
  rcases hcfg with h | h | h
  · simp [payloadFor, h, optStrTruthy]
  · simp [payloadFor, h, optStrTruthy]
  · simp only [payloadFor, h]
    split <;> rfl

/-- Helper shared by the payload claims: under a missing or unparseable
template every posted payload equals the default payload. -/
theorem webhookPost_payload_default (clients : List String) (store : Store)
    (deviceId : String) (device : DeviceRow) (msg : Msg) (u : String)
    (http : HttpOut) (send : Except String SentMsg)
    (hcfg : device.webhook_body_template = none ∨ device.webhook_body_template = some "" ∨
      buildDynamicPayload (device.webhook_body_template.getD "")
        (templateVars deviceId device msg) = none) :
    ∀ u2 p, Ev.webhookPost u2 p ∈ forwardToWebhook clients store deviceId device msg u http send →
      p = getDefaultPayload deviceId device msg := by
  intro u2 p hm
  have hfil : Ev.webhookPost u2 p
      ∈ (forwardToWebhook clients store deviceId device msg u http send).filter isWebhookPost :=
    List.mem_filter.2 ⟨hm, rfl⟩
  rw [forwardToWebhook_post clients store deviceId device msg u http send] at hfil
  simp at hfil
  rw [hfil.2, payloadFor_default deviceId device msg hcfg]

/-- C8: whenever no `bodyTemplate` is configured for the device, or the
template renders to invalid JSON, the payload delivered to the webhook is
exactly the Default Payload, whose field list is precisely
`device_id, device_name, from, to, message, message_type, timestamp,
message_id, from_name` — no more and no fewer. -/
theorem claim_C8_default_payload_schema (clients : List String) (store : Store)
    (deviceId : String) (device : DeviceRow) (msg : Msg) (u : String)
    (http : HttpOut) (send : Except String SentMsg)
    (hcfg : device.webhook_body_template = none ∨ device.webhook_body_template = some "" ∨
      buildDynamicPayload (device.webhook_body_template.getD "")
        (templateVars deviceId device msg) = none) :
    (∀ u2 p, Ev.webhookPost u2 p ∈ forwardToWebhook clients store deviceId device msg u http send →
      p = getDefaultPayload deviceId device msg) ∧
    ∃ fs, getDefaultPayload deviceId device msg = JVal.jobj fs ∧
      fs.map Prod.fst = ["device_id", "device_name", "from", "to", "message",
        "message_type", "timestamp", "message_id", "from_name"] := by
  constructor
  · exact webhookPost_payload_default clients store deviceId device msg u http send hcfg
  · exact ⟨_, rfl, rfl⟩

theorem claim_C8_default_payload_schema_witness :
    ∃ fs, getDefaultPayload "d1" fixDev fixMsg = JVal.jobj fs ∧
      fs.map Prod.fst = ["device_id", "device_name", "from", "to", "message",
        "message_type", "timestamp", "message_id", "from_name"] :=
  (claim_C8_default_payload_schema ["d1"] fixStore "d1" fixDev fixMsg "u2"
    HttpOut.connRefused (.ok fixSent) (Or.inl rfl)).2

/-! ### Template substitution: JS replacement patterns vs literal insertion -/

theorem expandDollar_no_dollar (repl matched before after : List Char)
    (h : chDollar ∉ repl) :
    expandDollar repl matched before after = repl := by
  induction repl with
  | nil => rfl
  | cons c t ih =>
    have hc : ¬ c = chDollar := by
      intro e
      exact h (e ▸ List.mem_cons_self _ _)
    have ht : chDollar ∉ t := fun m => h (List.mem_cons_of_mem _ m)
    rw [expandDollar.eq_def]
    simp only []
    rw [if_neg hc, ih ht]

theorem replAux_no_dollar (pat repl : List Char) (h : chDollar ∉ repl) :
    ∀ (fuel : Nat) (before rest : List Char),
      replAux fuel pat repl before rest = literalReplAux fuel pat repl rest := by
  intro fuel
  induction fuel with
  | zero => intro before rest; rfl
  | succ n ih =>
    intro before rest
    cases rest with
    | nil => rfl
    | cons c t =>
      simp only [replAux, literalReplAux]
      by_cases hp : pat ≠ [] ∧ pat.isPrefixOf (c :: t) = true
      · rw [if_pos hp, if_pos hp, expandDollar_no_dollar _ _ _ _ h, ih]
      · rw [if_neg hp, if_neg hp, ih]

theorem jsReplaceAll_no_dollar (s pat repl : String)
    (h : ¬ repl.toList.contains chDollar) :
    jsReplaceAll s pat repl = literalReplaceAll s pat repl := by
  unfold jsReplaceAll literalReplaceAll
  rw [replAux_no_dollar]
  simpa using h

/-- When none of the variable values contains a `$`, the source's
substitution agrees with the literal substitution the spec describes. -/
theorem substTemplate_no_dollar (vars : List (String × JVal))
    (h : ∀ kv ∈ vars, ¬ (replacementText kv.2).toList.contains chDollar) :
    ∀ t, substTemplate t vars = specLiteralSubst t vars := by
  induction vars with
  | nil => intro t; rfl
  | cons kv rest ih =>
    intro t
    simp only [substTemplate, specLiteralSubst, List.foldl_cons]
    rw [jsReplaceAll_no_dollar _ _ _ (h kv (List.mem_cons_self _ _))]
    exact ih (fun kv2 hm => h kv2 (List.mem_cons_of_mem _ hm)) _

/-- C3 counterexample: template `\x7b"m":"\x7b\x7bmessage\x7d\x7d"\x7d` and message body
`$$`.  The claim says the string value is inserted literally, which would
render `\x7b"m":"$$"\x7d`; the code inserts it as a JS replacement pattern
(`$$` collapses to `$`), rendering `\x7b"m":"$"\x7d`, so the parsed payload is
`\x7bm: "$"\x7d` instead of `\x7bm: "$$"\x7d`. -/
theorem claim_C3_literal_substitution_counterexample :
    substTemplate tmplC3 (templateVars "d1" fixDev fixMsgDollar)
      = "\x7b\"m\":\"$\"\x7d" ∧
    specLiteralSubst tmplC3 (templateVars "d1" fixDev fixMsgDollar)
      = "\x7b\"m\":\"$$\"\x7d" ∧
    substTemplate tmplC3 (templateVars "d1" fixDev fixMsgDollar)
      ≠ specLiteralSubst tmplC3 (templateVars "d1" fixDev fixMsgDollar) ∧
    buildDynamicPayload tmplC3 (templateVars "d1" fixDev fixMsgDollar)
      = some (JVal.jobj [("m", JVal.jstr "$")]) :=
  ⟨by decide, by decide, by decide, rfl⟩

/-- C3 (amended): `buildDynamicPayload` replaces every occurrence of
`\x7b\x7bkey\x7d\x7d` sequentially for each key of the fixed variable set — string
values inserted with JavaScript replacement-pattern semantics (`$$`, `$&`,
backtick- and quote-anchored forms are special; values without `$` are
inserted literally, matching the spec's description), numbers and booleans
as their textual form, null values as the token `null` — and parses the
substituted text as JSON; whenever that parse fails, the posted payload is
exactly the Default Payload, and the pipeline returns normally (the parse
error is caught inside `forwardToWebhook`). -/
theorem claim_C3_template_rendering_amended (deviceId : String) (device : DeviceRow)
    (msg : Msg) (t : String)
    (ht : device.webhook_body_template = some t) (_hne : t ≠ "") :
    buildDynamicPayload t (templateVars deviceId device msg)
      = parseJson (substTemplate t (templateVars deviceId device msg)) ∧
    ((∀ kv ∈ templateVars deviceId device msg,
        ¬ (replacementText kv.2).toList.contains chDollar) →
      substTemplate t (templateVars deviceId device msg)
        = specLiteralSubst t (templateVars deviceId device msg)) ∧
    (parseJson (substTemplate t (templateVars deviceId device msg)) = none →
      ∀ clients store u http send u2 p,
        Ev.webhookPost u2 p
            ∈ forwardToWebhook clients store deviceId device msg u http send →
        p = getDefaultPayload deviceId device msg) := by
  refine ⟨rfl, fun h => substTemplate_no_dollar _ h t, ?_⟩
  intro hparse clients store u http send u2 p hm
  have hcfg : device.webhook_body_template = none ∨ device.webhook_body_template = some "" ∨
      buildDynamicPayload (device.webhook_body_template.getD "")
        (templateVars deviceId device msg) = none := by
    right; right
    rw [ht]
    simpa [buildDynamicPayload] using hparse
  exact webhookPost_payload_default clients store deviceId device msg u http send hcfg
    u2 p hm

theorem claim_C3_template_rendering_amended_witness :
    substTemplate tmplC3 (templateVars "d1" fixDevTmpl fixMsg)
      = specLiteralSubst tmplC3 (templateVars "d1" fixDevTmpl fixMsg) :=
  (claim_C3_template_rendering_amended "d1" fixDevTmpl fixMsg tmplC3 rfl
    (by decide)).2.1 (by decide)

/-! ### Registry lemmas (`createDevice`, `disconnectDevice`, `disconnectAll`) -/

theorem alistLookup_set (l : List (String × Nat)) (k : String) (v : Nat) :
    alistLookup (alistSet l k v) k = some v := by
  unfold alistSet
  by_cases hany : l.any (fun kv => decide (kv.1 = k)) = true
  · rw [if_pos hany]
    induction l with
    | nil => simp at hany
    | cons kv t ih =>
      simp only [List.any_cons, Bool.or_eq_true, decide_eq_true_eq] at hany
      by_cases hk : kv.1 = k
      · simp [List.map_cons, hk, alistLookup]
      · have ht : t.any (fun kv => decide (kv.1 = k)) = true := by
          rcases hany with h | h
          · exact absurd h hk
          · simpa using h
        simp only [List.map_cons, if_neg hk, alistLookup]
        exact ih (by simpa using ht)
  · rw [if_neg hany]
    induction l with
    | nil => simp [alistLookup]
    | cons kv t ih =>
      simp only [List.any_cons, Bool.or_eq_true, decide_eq_true_eq] at hany
      push_neg at hany
      simp only [List.cons_append, alistLookup]
      rw [if_neg hany.1]
      exact ih (by simp [hany.2])

theorem alistLookup_erase (l : List (String × Nat)) (k : String) :
    alistLookup (alistErase l k) k = none := by
  unfold alistErase
  induction l with
  | nil => rfl
  | cons kv t ih =>
    by_cases hk : kv.1 = k
    · simp only [List.filter_cons, hk]
      simpa using ih
    · simp only [List.filter_cons]
      rw [if_pos (by simpa using hk)]
      simp only [alistLookup]
      rw [if_neg hk]
      exact ih

theorem filter_append_self (l : List String) (d : String) (h : d ∉ l) :
    (l ++ [d]).filter (fun c => c ≠ d) = l := by
  rw [List.filter_append]
  have h1 : l.filter (fun c => c ≠ d) = l := by
    apply List.filter_eq_self.mpr
    intro a ha
    simpa using ne_of_mem_of_not_mem ha h
  have h2 : ([d] : List String).filter (fun c => c ≠ d) = [] := by simp
  rw [h1, h2, List.append_nil]

theorem createDevice_already (reg : Registry) (d n : String) (ok : Bool)
    (h : d ∈ reg.clients) :
    createDevice reg d n ok = (.alreadyExists, reg) := by
  simp [createDevice, h]

theorem createDevice_limit (reg : Registry) (d n : String) (ok : Bool)
    (h : d ∉ reg.clients) (ha : getAttempts reg d ≥ maxRetries) :
    createDevice reg d n ok = (.retryLimitExceeded, reg) := by
  simp [createDevice, h, ha]

theorem createDevice_fail (reg : Registry) (d n : String)
    (h : d ∉ reg.clients) (ha : getAttempts reg d < maxRetries) :
    (createDevice reg d n false).1 = .initFailed ∧
    (createDevice reg d n false).2.clients = reg.clients ∧
    getAttempts (createDevice reg d n false).2 d = getAttempts reg d + 1 := by
  have hnl : ¬ getAttempts reg d ≥ maxRetries := by omega
  simp only [createDevice]
  rw [if_neg (by simpa using h), if_neg hnl, if_neg (by simp)]
  refine ⟨rfl, ?_, ?_⟩
  · exact filter_append_self reg.clients d h
  · simp only [getAttempts, alistLookup_set]
    rfl

theorem createDevice_success (reg : Registry) (d n : String)
    (h : d ∉ reg.clients) (ha : getAttempts reg d < maxRetries) :
    (createDevice reg d n true).1 = .created ∧
    (createDevice reg d n true).2.clients = reg.clients ++ [d] ∧
    getAttempts (createDevice reg d n true).2 d = 0 := by
  have hnl : ¬ getAttempts reg d ≥ maxRetries := by omega
  simp only [createDevice]
  rw [if_neg (by simpa using h), if_neg hnl]
  simp only [if_true]
  refine ⟨by trivial, by trivial, ?_⟩
  simp only [getAttempts, alistLookup_erase]
  rfl

/-- C1: `createDevice` fails with `AlreadyExists` when the device is in the
active set and with `RetryLimitExceeded` when the attempt count has reached
`maxRetries` (3); a failed initialization increments the count by one and
leaves the device out of the active set; a successful one registers the
device and resets the count to 0; and after three consecutive failed
initializations from a fresh state, a fourth call fails with
`RetryLimitExceeded` whatever its own initialization would do. -/
theorem claim_C1_createDevice_retry_protocol (reg : Registry) (d n : String)
    (initOk : Bool) :
    (d ∈ reg.clients → createDevice reg d n initOk = (.alreadyExists, reg)) ∧
    (d ∉ reg.clients → getAttempts reg d ≥ maxRetries →
      createDevice reg d n initOk = (.retryLimitExceeded, reg)) ∧
    (d ∉ reg.clients → getAttempts reg d < maxRetries →
      (createDevice reg d n false).1 = .initFailed ∧
      (createDevice reg d n false).2.clients = reg.clients ∧
      getAttempts (createDevice reg d n false).2 d = getAttempts reg d + 1) ∧
    (d ∉ reg.clients → getAttempts reg d < maxRetries →
      (createDevice reg d n true).1 = .created ∧
      (createDevice reg d n true).2.clients = reg.clients ++ [d] ∧
      getAttempts (createDevice reg d n true).2 d = 0) ∧
    (d ∉ reg.clients → getAttempts reg d = 0 →
      (createDevice
        (createDevice (createDevice (createDevice reg d n false).2 d n false).2 d n false).2
        d n initOk).1 = .retryLimitExceeded) := by
  refine ⟨createDevice_already reg d n initOk,
    fun h ha => createDevice_limit reg d n initOk h ha,
    fun h ha => createDevice_fail reg d n h ha,
    fun h ha => createDevice_success reg d n h ha, ?_⟩
  intro h h0
  obtain ⟨-, hc1, ha1⟩ := createDevice_fail reg d n h (by rw [h0]; decide)
  have hm1 : d ∉ (createDevice reg d n false).2.clients := hc1 ▸ h
  obtain ⟨-, hc2, ha2⟩ := createDevice_fail (createDevice reg d n false).2 d n hm1
    (by rw [ha1, h0]; decide)
  have hm2 : d ∉ (createDevice (createDevice reg d n false).2 d n false).2.clients := hc2 ▸ hm1
  obtain ⟨-, hc3, ha3⟩ := createDevice_fail (createDevice (createDevice reg d n false).2 d n false).2
    d n hm2 (by rw [ha2, ha1, h0]; decide)
  have hm3 : d ∉ (createDevice (createDevice (createDevice reg d n false).2 d n false).2
      d n false).2.clients := hc3 ▸ hm2
  have hfin : getAttempts (createDevice (createDevice (createDevice reg d n false).2 d n false).2
      d n false).2 d ≥ maxRetries := by
    rw [ha3, ha2, ha1, h0]
    decide
  exact congrArg Prod.fst (createDevice_limit _ d n initOk hm3 hfin)

theorem claim_C1_createDevice_retry_protocol_witness :
    (createDevice fixReg0 "d1" "Phone A" false).1 = CreateResult.initFailed ∧
    (createDevice
      (createDevice (createDevice (createDevice fixReg0 "d1" "n" false).2 "d1" "n" false).2
        "d1" "n" false).2 "d1" "n" true).1 = CreateResult.retryLimitExceeded :=
  ⟨((claim_C1_createDevice_retry_protocol fixReg0 "d1" "Phone A" false).2.2.1
      (by decide) (by decide)).1,
   (claim_C1_createDevice_retry_protocol fixReg0 "d1" "n" true).2.2.2.2
      (by decide) (by decide)⟩

theorem findById_storeUpdate_self (l : List (String × DeviceRow)) (id : String)
    (f : DeviceRow → DeviceRow) :
    alistFind (l.map (fun kv => if kv.1 = id then (kv.1, f kv.2) else kv)) id
      = (alistFind l id).map f := by
  induction l with
  | nil => rfl
  | cons kv t ih =>
    by_cases h : kv.1 = id
    · simp [alistFind, h]
    · simp only [List.map_cons, if_neg h, alistFind]
      exact ih

theorem disconnectDevice_notmem_stable (reg : Registry) (d : String) (ok : Bool)
    (x : String) (h : x ∉ reg.clients) :
    x ∉ (disconnectDevice reg d ok).1.clients := by
  unfold disconnectDevice
  repeat' split
  all_goals simp_all [List.mem_filter]

theorem disconnectAllStep_removes (f : String → Bool) (acc : Registry × List Ev)
    (d : String) (hok : f d = true) :
    d ∉ (disconnectAllStep f acc d).1.clients := by
  unfold disconnectAllStep disconnectDevice
  rw [hok]
  repeat' split
  all_goals simp_all [List.mem_filter]

theorem disconnectAllStep_notmem_stable (f : String → Bool) (acc : Registry × List Ev)
    (d x : String) (h : x ∉ acc.1.clients) :
    x ∉ (disconnectAllStep f acc d).1.clients := by
  unfold disconnectAllStep
  exact disconnectDevice_notmem_stable acc.1 d (f d) x h

theorem disconnectAllStep_keeps (f : String → Bool) (acc : Registry × List Ev)
    (d x : String) (h : x ∈ acc.1.clients) (hx : f x = false) :
    x ∈ (disconnectAllStep f acc d).1.clients := by
  unfold disconnectAllStep disconnectDevice
  by_cases hdx : d = x
  · subst hdx
    rw [hx]
    simp [h]
  · repeat' split
    all_goals simp_all [List.mem_filter]
    exact fun e => hdx e.symm

theorem foldl_step_notmem (f : String → Bool) (L : List String) :
    ∀ (acc : Registry × List Ev) (x : String), x ∉ acc.1.clients →
      x ∉ (L.foldl (disconnectAllStep f) acc).1.clients := by
  induction L with
  | nil => intro acc x h; exact h
  | cons d t ih =>
    intro acc x h
    exact ih _ x (disconnectAllStep_notmem_stable f acc d x h)

theorem foldl_step_keeps (f : String → Bool) (L : List String) :
    ∀ (acc : Registry × List Ev) (x : String), x ∈ acc.1.clients → f x = false →
      x ∈ (L.foldl (disconnectAllStep f) acc).1.clients := by
  induction L with
  | nil => intro acc x h _; exact h
  | cons d t ih =>
    intro acc x h hx
    exact ih _ x (disconnectAllStep_keeps f acc d x h hx) hx

theorem foldl_step_removes (f : String → Bool) (L : List String) :
    ∀ (acc : Registry × List Ev) (x : String), x ∈ L → f x = true →
      x ∉ (L.foldl (disconnectAllStep f) acc).1.clients := by
  induction L with
  | nil => intro acc x h _; exact absurd h (List.not_mem_nil x)
  | cons d t ih =>
    intro acc x h hx
    rcases List.mem_cons.1 h with rfl | hmem
    · exact foldl_step_notmem f t _ x (disconnectAllStep_removes f acc x hx)
    · exact ih _ x hmem hx

/-- C5 counterexample: one active device `d1` whose provider teardown
throws.  The claim says `disconnectSession` removes the session from the
active set and marks the lifecycle `Disconnected`; the code's catch skips
both (`clients.delete` and the store update are never reached), so `d1`
stays active and its persisted status remains `connected`. -/
theorem claim_C5_disconnect_removal_counterexample :
    (disconnectDevice fixReg1 "d1" false).1.clients = ["d1"] ∧
    "d1" ∈ (disconnectDevice fixReg1 "d1" false).1.clients ∧
    findById (disconnectDevice fixReg1 "d1" false).1.store "d1" = some fixDev ∧
    fixDev.status = "connected" :=
  ⟨rfl, by decide, rfl, rfl⟩

/-- C5 (amended): `disconnectSession` is a no-op when no session is active;
with an active session it attempts provider teardown: on success it removes
the session from the active set and marks the persisted status
`disconnected` (clearing the QR payload), and a second call is then a
no-op; on teardown failure the error is only logged — the session stays in
the active set and the store row is untouched.  `disconnectAll` tears down
every active device: each device whose teardown succeeds is removed even
when any other device's teardown fails, and each device whose teardown
fails remains. -/
theorem claim_C5_disconnect_amended (reg : Registry) (d : String) (ok : Bool)
    (f : String → Bool) :
    (d ∉ reg.clients → disconnectDevice reg d ok = (reg, [])) ∧
    (d ∈ reg.clients →
      (disconnectDevice reg d true).1.clients = reg.clients.filter (fun c => c ≠ d) ∧
      d ∉ (disconnectDevice reg d true).1.clients ∧
      ∀ row, findById reg.store d = some row →
        findById (disconnectDevice reg d true).1.store d
          = some { row with status := "disconnected", qr_code := none }) ∧
    (d ∈ reg.clients → disconnectDevice reg d false = (reg, [])) ∧
    (∀ x, x ∈ reg.clients → f x = true → x ∉ (disconnectAll reg f).1.clients) ∧
    (∀ x, x ∈ reg.clients → f x = false → x ∈ (disconnectAll reg f).1.clients) := by
  refine ⟨?_, ?_, ?_, ?_, ?_⟩
  · intro h
    simp [disconnectDevice, h]
  · intro h
    refine ⟨?_, ?_, ?_⟩
    · simp [disconnectDevice, h]
    · simp [disconnectDevice, h, List.mem_filter]
    · intro row hrow
      have hred : (disconnectDevice reg d true).1.store
          = storeUpdate reg.store d
              (fun r => { r with status := "disconnected", qr_code := none }) := by
        simp [disconnectDevice, h]
      rw [hred]
      simp only [findById, storeUpdate] at hrow ⊢
      have hstep := findById_storeUpdate_self reg.store.devices d
        (fun r => { r with status := "disconnected", qr_code := none })
      exact hstep.trans (by rw [hrow]; rfl)
  · intro h
    simp [disconnectDevice, h]
  · intro x hx hfx
    exact foldl_step_removes f reg.clients (reg, []) x hx hfx
  · intro x hx hfx
    exact foldl_step_keeps f reg.clients (reg, []) x hx hfx

theorem claim_C5_disconnect_amended_witness :
    "d1" ∉ (disconnectDevice fixReg1 "d1" true).1.clients ∧
    disconnectDevice fixReg1 "d1" false = (fixReg1, []) :=
  ⟨((claim_C5_disconnect_amended fixReg1 "d1" true (fun _ => true)).2.1 (by decide)).2.1,
   (claim_C5_disconnect_amended fixReg1 "d1" false (fun _ => true)).2.2.1 (by decide)⟩

end Waweb
